import Mathlib

/-!
# Turn synchronisation of `playturn.cpp`

A shallow embedding of `turn_info::send_data`, `turn_info::sync_network`,
`turn_info::process_network_data` and `turn_info::change_side_controller`
(`src/src/playturn.cpp`), followed by theorems about them.

Modelling decisions.

* `config` is the generic WML tree: string attributes and ordered named
  children.  `attr` is the const `operator[]` (a missing key reads as the
  empty string), `child` the first child of a name, `get_children` all
  children of a name in order.
* Calls into collaborators that are not part of `playturn.cpp` (network,
  sound, chat, recorder, dialog) are recorded, in program order, in a list of
  `effect`s returned next to the new state.
* The replay interpreter `do_replay`, `find_leader`, the modal dialog,
  `is_observer` and gettext are parameters, collected in `environment`.
  The interpreter acts on an abstract game world `W` (units, map, status,
  the non-controller data of the teams); the controller of each team, the
  displayed team and the observer roster are explicit fields of `turn_info`.
* A C++ exception `network::error` is the `Except.error` result; the state
  and the effects reached before the throw are still returned.
* `int` is 32 bit two's complement, `long` and `size_t` are 64 bit.
-/

/-! ## The WML tree -/

/-- The generic message tree `config`: attributes and ordered named children. -/
inductive config where
  | mk (values : List (String × String)) (children : List (String × config))

namespace config

/-- The attribute list of a node. -/
def values : config → List (String × String)
  | mk v _ => v

/-- The ordered list of named children of a node. -/
def children : config → List (String × config)
  | mk _ c => c

/-- All children called `key`, in order: `cfg.get_children(key)`. -/
def get_children (cfg : config) (key : String) : List config :=
  (cfg.children.filter (fun p => p.1 == key)).map Prod.snd

/-- The first child called `key`, if any: `cfg.child(key)`. -/
def child (cfg : config) (key : String) : Option config :=
  (cfg.get_children key).head?

/-- The const `cfg[key]`: the value of the attribute, empty when it is absent. -/
def attr (cfg : config) (key : String) : String :=
  match cfg.values.find? (fun p => p.1 == key) with
  | some p => p.2
  | none => ""

end config

/-! ## Machine integers and the two numeric readers -/

/-- Reduce an integer to the 32 bit two's complement range of `int`. -/
def wrap_int (z : Int) : Int := (z + 2 ^ 31) % 2 ^ 32 - 2 ^ 31

/-- Saturate an integer to the range of a 64 bit `long`, as `strtol` does. -/
def clamp_long (z : Int) : Int :=
  if z < -(2 ^ 63) then -(2 ^ 63) else if 2 ^ 63 - 1 < z then 2 ^ 63 - 1 else z

/-- The conversion `static_cast<size_t>` of a signed value (64 bit). -/
def to_size_t (z : Int) : Nat := (z % 2 ^ 64).toNat

/-- The C `isspace` in the classic locale: space and the controls 9 to 13. -/
def isspace (c : Char) : Bool := c.toNat == 32 || (9 ≤ c.toNat && c.toNat ≤ 13)

/-- The C `isdigit`. -/
def isdigit (c : Char) : Bool := 48 ≤ c.toNat && c.toNat ≤ 57

/-- Drop leading white space. -/
def skip_space : List Char → List Char
  | [] => []
  | c :: cs => if isspace c then skip_space cs else c :: cs

/-- Accumulate the leading run of decimal digits onto `acc`. -/
def read_digits : List Char → Nat → Nat
  | [], acc => acc
  | c :: cs, acc => if isdigit c then read_digits cs (acc * 10 + (c.toNat - 48)) else acc

/-- An unsigned decimal number at the head of the text, if a digit is there. -/
def read_number : List Char → Option Nat
  | [] => none
  | c :: cs => if isdigit c then some (read_digits (c :: cs) 0) else none

/-- The signed decimal integer at the head of a text, after optional white
space and an optional sign; `none` when no digit is found there. -/
def parse_leading_int (s : List Char) : Option Int :=
  match skip_space s with
  | [] => none
  | c :: cs =>
    if c.toNat == 45 then (read_number cs).map (fun n => -(n : Int))
    else if c.toNat == 43 then (read_number cs).map (fun n => (n : Int))
    else (read_number (c :: cs)).map (fun n => (n : Int))

/-- Modelled from the spec: `lexical_cast_default<int>` (declared outside
`playturn.cpp`) reads the text through a string stream into an `int` and
returns `def` when that read fails ("default 1 if missing/unparseable"):
no leading integer, or a value outside the range of `int`. -/
def lexical_cast_default (s : String) (dflt : Int) : Int :=
  match parse_leading_int s.data with
  | none => dflt
  | some v => if -(2 ^ 31) ≤ v ∧ v ≤ 2 ^ 31 - 1 then v else dflt

/-- The C library `atoi`, as `(int) strtol(s, NULL, 10)`: the leading integer
(0 when there is none), saturated to `long` and truncated to `int`. -/
def atoi (s : String) : Int :=
  match parse_leading_int s.data with
  | none => 0
  | some v => wrap_int (clamp_long v)

/-! ## Ordered string sets (`std::set<std::string>`) -/

/-- Lexicographic `<` on character lists, the order of `std::string`. -/
def lex_less : List Char → List Char → Bool
  | [], [] => false
  | [], _ :: _ => true
  | _ :: _, [] => false
  | a :: as, b :: bs =>
    if a.toNat < b.toNat then true
    else if b.toNat < a.toNat then false
    else lex_less as bs

/-- Insertion into a `std::set<std::string>` kept as its sorted iteration. -/
def set_insert (x : String) : List String → List String
  | [] => [x]
  | y :: ys =>
    if lex_less x.data y.data then x :: y :: ys
    else if lex_less y.data x.data then y :: set_insert x ys
    else y :: ys

/-- Removal of a key from a `std::set<std::string>`. -/
def set_erase (x : String) (s : List String) : List String :=
  s.filter (fun y => !(y == x))

/-! ## Teams, results, effects -/

/-- The controller of a side. -/
inductive CONTROLLER where
  | HUMAN
  | AI
  | NETWORK
  deriving DecidableEq, Repr

/-- The part of `team` that `playturn.cpp` writes: its controller. -/
structure team where
  controller : CONTROLLER
  deriving DecidableEq, Repr

/-- The setter `team::make_human`. -/
def team.make_human (_t : team) : team := ⟨CONTROLLER.HUMAN⟩

/-- The setter `team::make_network`. -/
def team.make_network (_t : team) : team := ⟨CONTROLLER.NETWORK⟩

/-- The setter `team::make_ai`. -/
def team.make_ai (_t : team) : team := ⟨CONTROLLER.AI⟩

/-- The enumeration `turn_info::PROCESS_DATA_RESULT`. -/
inductive PROCESS_DATA_RESULT where
  | PROCESS_CONTINUE
  | PROCESS_RESTART_TURN
  | PROCESS_END_TURN
  deriving DecidableEq, Repr

/-- The exception `network::error`, with its message. -/
structure network_error where
  message : String
  deriving DecidableEq, Repr

/-- A network connection handle; 0 is `network::null_connection`. -/
abbrev connection := Nat

/-- The handle `network::null_connection`. -/
def null_connection : connection := 0

/-- What a call of `do_replay` gave: the end-of-turn flag it returned, or the
message of the `replay::error` it threw. -/
abbrev replay_outcome := Except String Bool

/-- Calls into the collaborators of `turn_info`, as they are issued. -/
inductive effect where
  /-- The call `sound::play_sound(game_config::sounds::receive_message)`. -/
  | play_sound_receive_message
  /-- The call `gui_.add_chat_message(speaker, 0, message, MESSAGE_PRIVATE)`. -/
  | add_chat_message (speaker : String) (message : String)
  /-- The call `network::send_data_all_except(cfg, from)`. -/
  | send_data_all_except (cfg : config) (from_ : connection)
  /-- A replay object built on a batch, `set_skip`, `start_replay`, and the
  call of `do_replay` on it, with what that call gave. -/
  | do_replay (batch : config) (skip : Bool) (outcome : replay_outcome)
  /-- The call `network::send_data(cfg)`, a broadcast to all peers. -/
  | send_data (cfg : config)
  /-- The store to `replay::last_replay_error` and
  `replay_error_.notify_observers()`. -/
  | replay_error (message : String)
  /-- The call `recorder.add_config(batch, replay::MARK_AS_SENT)`. -/
  | add_config_mark_as_sent (batch : config)
  /-- The error-log line "unknown side ... is dropping game". -/
  | log_unknown_side (side : Nat)
  /-- The call `gui::show_dialog2(gui_, NULL, "", msg, OK_ONLY, &options)`. -/
  | show_dialog2 (msg : String) (options : List String)
  /-- The call `replay_sender_.commit_and_sync()`. -/
  | commit_and_sync
  /-- The call `replay_sender_.sync_non_undoable()`. -/
  | sync_non_undoable
  /-- A successful `network::receive_data(cfg)`. -/
  | receive_data (cfg : config) (res : connection)

/-- An entry of the undo stack; only the emptiness of the stack is read. -/
structure undo_action where
  tag : Nat
  deriving DecidableEq, Repr

/-- The collaborators of `turn_info` that return a value to it, over a game
world `W`. -/
structure environment (W : Type) where
  /-- The result of `is_observer()`. -/
  is_observer : Bool
  /-- The interpreter `do_replay` on a batch with the skip flag: the world it
  leaves, and its return value or the message of its `replay::error`. -/
  do_replay : W → config → Bool → W × replay_outcome
  /-- The description of the leader of a side found by `find_leader`, or
  `none` for `units_.end()`. -/
  find_leader : W → Nat → Option String
  /-- The value returned by the modal dialog for a message and options. -/
  show_dialog2 : W → String → List String → Int
  /-- The translation `_("...")`. -/
  gettext : String → String

/-- The state of a `turn_info` and of the transport it polls. -/
structure turn_info (W : Type) where
  /-- The controllers of `teams_`. -/
  teams_ : List team
  /-- The team shown by `gui_` (`display::set_team`). -/
  gui_team : Nat
  /-- The roster `gui_.observers()`, in iteration order. -/
  gui_observers : List String
  /-- The game world the replay interpreter acts on. -/
  world : W
  /-- The stack `undo_stack_`. -/
  undo_stack_ : List undo_action
  /-- The value of `network::nconnections()`. -/
  nconnections : Nat
  /-- The messages `network::receive_data` will deliver, with their origin. -/
  inbound : List (config × connection)

/-- The state, backlog, effects and result of a member function call. -/
structure outcome (W : Type) (R : Type) where
  state : turn_info W
  backlog : List config
  effects : List effect
  result : Except network_error R

/-! ## Building messages -/

namespace config

/-- The empty node `config()`. -/
def empty : config := mk [] []

/-- Insertion of a key into the attribute map, which is ordered by key. -/
def insert_value (key val : String) : List (String × String) → List (String × String)
  | [] => [(key, val)]
  | p :: ps =>
    if lex_less key.data p.1.data then (key, val) :: p :: ps
    else if lex_less p.1.data key.data then p :: insert_value key val ps
    else (key, val) :: ps

/-- The assignment `cfg[key] = val`. -/
def set_attr (cfg : config) (key val : String) : config :=
  mk (insert_value key val cfg.values) cfg.children

/-- The call `cfg.add_child(key, val)`: a new last child. -/
def add_child (cfg : config) (key : String) (val : config) : config :=
  mk cfg.values (cfg.children ++ [(key, val)])

end config

/-- The message built in the `catch` block of `process_network_data`:
`info` with `type=termination` and `condition=out of sync`. -/
def out_of_sync_message : config :=
  config.empty.add_child "info"
    ((config.empty.set_attr "type" "termination").set_attr "condition" "out of sync")

/-- The message `backlog.push_back(config()); backlog.back().add_child("turn", t)`. -/
def backlog_entry (t : config) : config := config.empty.add_child "turn" t

/-- Apply `f` to the team at `index`, as `teams_[index].f()` does. -/
def modify_team (f : team → team) : List team → Nat → List team
  | [], _ => []
  | t :: ts, 0 => f t :: ts
  | t :: ts, n + 1 => t :: modify_team f ts n

/-! ## `turn_info::send_data` and `turn_info::change_side_controller` -/

/-- The member `turn_info::send_data`: the resulting state and the calls made
on the outgoing replay buffer. -/
def send_data {W : Type} (ti : turn_info W) : turn_info W × List effect :=
  if ti.undo_stack_.isEmpty then
    (ti, [effect.commit_and_sync])
  else
    (ti, [effect.sync_non_undoable])

/-- The message built by `turn_info::change_side_controller`. -/
def change_side_controller_message (side player : String) (own_side : Bool) : config :=
  let change := (config.empty.set_attr "side" side).set_attr "player" player
  let change := if own_side then change.set_attr "own_side" "yes" else change
  config.empty.add_child "change_controller" change

/-- The member `turn_info::change_side_controller`: one broadcast. -/
def change_side_controller (side player : String) (own_side : Bool) : List effect :=
  [effect.send_data (change_side_controller_message side player own_side)]

/-! ## `turn_info::process_network_data` -/

/-- The whisper block (lines 72-77): a sound and a private chat line when a
`whisper` child is present and the local participant is an observer. -/
def whisper_effects {W : Type} (env : environment W) (cfg : config) : List effect :=
  match cfg.child "whisper" with
  | some cwhisper =>
    if env.is_observer then
      [effect.play_sound_receive_message,
       effect.add_chat_message ("whisper: " ++ cwhisper.attr "sender") (cwhisper.attr "message")]
    else []
  | none => []

/-- The `observer` block (lines 78-83): every name joins the roster. -/
def add_observers (cfg : config) (roster : List String) : List String :=
  match cfg.child "observer" with
  | some _ => (cfg.get_children "observer").foldl (fun r ob => set_insert (ob.attr "name") r) roster
  | none => roster

/-- The `observer_quit` block (lines 85-90): every name leaves the roster. -/
def remove_observers (cfg : config) (roster : List String) : List String :=
  match cfg.child "observer_quit" with
  | some _ =>
    (cfg.get_children "observer_quit").foldl (fun r ob => set_erase (ob.attr "name") r) roster
  | none => roster

/-- The forwarding block (lines 98-102). -/
def forward_effects (cfg : config) (turns : List config) (from_ : connection) : List effect :=
  if turns.isEmpty = false ∧ from_ ≠ null_connection then
    [effect.send_data_all_except cfg from_]
  else []

/-- What the loop over the `turn` children leaves behind. -/
structure turn_loop (W : Type) where
  world : W
  turn_end : Bool
  backlog : List config
  effects : List effect

/-- The loop over the `turn` children (lines 104-135), from a value of
`turn_end`, a world and a backlog. -/
def replay_turns {W : Type} (env : environment W) (skip_replay : Bool) :
    List config → Bool → W → List config → turn_loop W
  | [], turn_end, w, backlog => ⟨w, turn_end, backlog, []⟩
  | t :: ts, turn_end, w, backlog =>
    if turn_end = false then
      match env.do_replay w t skip_replay with
      | (w1, Except.ok ended) =>
        let r := replay_turns env skip_replay ts ended w1 backlog
        ⟨r.world, r.turn_end, r.backlog,
          effect.do_replay t skip_replay (Except.ok ended)
            :: effect.add_config_mark_as_sent t :: r.effects⟩
      | (w1, Except.error message) =>
        let r := replay_turns env skip_replay ts false w1 backlog
        ⟨r.world, r.turn_end, r.backlog,
          effect.do_replay t skip_replay (Except.error message)
            :: effect.send_data out_of_sync_message
            :: effect.replay_error message
            :: effect.add_config_mark_as_sent t :: r.effects⟩
    else
      replay_turns env skip_replay ts turn_end w (backlog ++ [backlog_entry t])

/-- The index computed from the `side` of a `change_controller` child
(lines 138-139). -/
def change_controller_index (change : config) : Nat :=
  to_size_t (wrap_int (lexical_cast_default (change.attr "side") 1 - 1))

/-- The `change_controller` block (lines 137-155): the state after it when it
returns `PROCESS_RESTART_TURN`, and `none` when control falls through. -/
def change_controller_step {W : Type} (ti : turn_info W) (cfg : config) :
    Option (turn_info W) :=
  match cfg.child "change_controller" with
  | some change =>
    let index := change_controller_index change
    let controller := change.attr "controller"
    if index < ti.teams_.length then
      if controller = "human" then
        some { ti with teams_ := modify_team team.make_human ti.teams_ index, gui_team := index }
      else if controller = "network" then
        some { ti with teams_ := modify_team team.make_network ti.teams_ index }
      else if controller = "ai" then
        some { ti with teams_ := modify_team team.make_ai ti.teams_ index }
      else some ti
    else none
  | none => none

/-- The index computed from the `side_drop` attribute (line 159). -/
def side_drop_index (cfg : config) : Nat :=
  to_size_t (wrap_int (atoi (cfg.attr "side_drop") - 1))

/-- The options offered by the side-drop dialog (lines 174-182). -/
def side_drop_options {W : Type} (env : environment W) (roster : List String) : List String :=
  [env.gettext "Replace with AI", env.gettext "Replace with local player",
   env.gettext "Abort game"] ++ roster.map (fun ob => env.gettext "Replace with " ++ ob)

/-- The text of the side-drop dialog (line 184). -/
def side_drop_prompt {W : Type} (env : environment W) (description : String) : String :=
  description ++ " " ++ env.gettext "has left the game. What do you want to do?"

/-- The `switch` on the chosen action (lines 191-211). -/
def side_drop_switch {W : Type} (ti : turn_info W) (cfg : config) (side : Nat) (action : Int)
    (observers : List String) :
    turn_info W × List effect × Except network_error PROCESS_DATA_RESULT :=
  if action = 0 then
    ({ ti with teams_ := modify_team team.make_ai ti.teams_ side }, [],
      Except.ok PROCESS_DATA_RESULT.PROCESS_RESTART_TURN)
  else if action = 1 then
    ({ ti with teams_ := modify_team team.make_human ti.teams_ side }, [],
      Except.ok PROCESS_DATA_RESULT.PROCESS_RESTART_TURN)
  else if action > 2 then
    let index := (action - 3).toNat
    match observers.get? index with
    | some name =>
      ({ ti with teams_ := modify_team team.make_network ti.teams_ side },
        change_side_controller (cfg.attr "side_drop") name false,
        Except.ok PROCESS_DATA_RESULT.PROCESS_RESTART_TURN)
    | none =>
      ({ ti with teams_ := modify_team team.make_ai ti.teams_ side }, [],
        Except.ok PROCESS_DATA_RESULT.PROCESS_RESTART_TURN)
  else (ti, [], Except.error ⟨""⟩)

/-- The `side_drop` block (lines 158-212), entered when the attribute is not
empty: it always returns or throws. -/
def side_drop_step {W : Type} (env : environment W) (ti : turn_info W) (cfg : config) :
    turn_info W × List effect × Except network_error PROCESS_DATA_RESULT :=
  let side := side_drop_index cfg
  if side ≥ ti.teams_.length then
    (ti, [effect.log_unknown_side side], Except.error ⟨""⟩)
  else
    match env.find_leader ti.world (side + 1) with
    | some description =>
      let options := side_drop_options env ti.gui_observers
      let msg := side_drop_prompt env description
      let action := env.show_dialog2 ti.world msg options
      let r := side_drop_switch ti cfg side action ti.gui_observers
      (r.1, effect.show_dialog2 msg options :: r.2.1, r.2.2)
    | none => side_drop_switch ti cfg side 0 []

/-- The member `turn_info::process_network_data(cfg, from, backlog, skip_replay)`. -/
def process_network_data {W : Type} (env : environment W) (ti : turn_info W) (cfg : config)
    (from_ : connection) (backlog : List config) (skip_replay : Bool) :
    outcome W PROCESS_DATA_RESULT :=
  let e1 := whisper_effects env cfg
  let ti1 := { ti with gui_observers := remove_observers cfg (add_observers cfg ti.gui_observers) }
  if (cfg.child "leave_game").isSome then
    ⟨ti1, backlog, e1, Except.error ⟨""⟩⟩
  else
    let turns := cfg.get_children "turn"
    let e2 := forward_effects cfg turns from_
    let loop := replay_turns env skip_replay turns false ti1.world backlog
    let ti2 := { ti1 with world := loop.world }
    match change_controller_step ti2 cfg with
    | some ti3 =>
      ⟨ti3, loop.backlog, e1 ++ e2 ++ loop.effects,
        Except.ok PROCESS_DATA_RESULT.PROCESS_RESTART_TURN⟩
    | none =>
      if cfg.attr "side_drop" ≠ "" then
        let r := side_drop_step env ti2 cfg
        ⟨r.1, loop.backlog, e1 ++ e2 ++ loop.effects ++ r.2.1, r.2.2⟩
      else
        ⟨ti2, loop.backlog, e1 ++ e2 ++ loop.effects,
          Except.ok (if loop.turn_end then PROCESS_DATA_RESULT.PROCESS_END_TURN
                     else PROCESS_DATA_RESULT.PROCESS_CONTINUE)⟩

/-! ## `turn_info::sync_network` -/

/-- The receive loop of `sync_network` (lines 51-55) over the pending inbound
messages: each is dispatched with a fresh backlog and `skip_replay = false`;
a `network::error` leaves the loop at once. -/
def receive_loop {W : Type} (env : environment W) :
    List (config × connection) → turn_info W → turn_info W × List effect × Except network_error Unit
  | [], ti => ({ ti with inbound := [] }, [], Except.ok ())
  | (cfg, res) :: rest, ti =>
    if res = null_connection then
      ({ ti with inbound := (cfg, res) :: rest }, [], Except.ok ())
    else
      let r := process_network_data env { ti with inbound := rest } cfg res [] false
      match r.result with
      | Except.error e => (r.state, effect.receive_data cfg res :: r.effects, Except.error e)
      | Except.ok _ =>
        let s := receive_loop env rest r.state
        (s.1, effect.receive_data cfg res :: (r.effects ++ s.2.1), s.2.2)

/-- The member `turn_info::sync_network`. -/
def sync_network {W : Type} (env : environment W) (ti : turn_info W) :
    turn_info W × List effect × Except network_error Unit :=
  if ti.nconnections > 0 then
    let r := receive_loop env ti.inbound ti
    match r.2.2 with
    | Except.error e => (r.1, r.2.1, Except.error e)
    | Except.ok _ =>
      let s := send_data r.1
      (s.1, r.2.1 ++ s.2, Except.ok ())
  else (ti, [], Except.ok ())

/-! ## Notions used in the statements, and sample inputs -/

/-- The state in which the blocks after the `leave_game` test run: the roster
updated, the world as the replay loop left it. -/
def state_after_turns {W : Type} (env : environment W) (ti : turn_info W) (cfg : config)
    (backlog : List config) (skip_replay : Bool) : turn_info W :=
  { ti with
    gui_observers := remove_observers cfg (add_observers cfg ti.gui_observers),
    world := (replay_turns env skip_replay (cfg.get_children "turn") false ti.world backlog).world }

/-- A sample environment: a batch with `fail=yes` raises a replay error, one
with `end=yes` ends the turn; the world lists the sides whose leader lives;
the dialog returns `answer`. -/
def sample_env (answer : Int) : environment (List Nat) where
  is_observer := true
  do_replay := fun w t _ =>
    if t.attr "fail" = "yes" then (w, Except.error "desync")
    else (w, Except.ok (t.attr "end" == "yes"))
  find_leader := fun w side => if side ∈ w then some "Leader" else none
  show_dialog2 := fun _ _ _ => answer
  gettext := fun s => s

/-- A sample state: three teams, roster Alice and Bob, leaders of sides 1, 2 and 3
alive. -/
def sample_state : turn_info (List Nat) :=
  { teams_ := [⟨CONTROLLER.HUMAN⟩, ⟨CONTROLLER.NETWORK⟩, ⟨CONTROLLER.NETWORK⟩],
    gui_team := 0,
    gui_observers := ["Alice", "Bob"],
    world := [1, 2, 3],
    undo_stack_ := [],
    nconnections := 1,
    inbound := [] }

/-- A sample batch with one attribute. -/
def batch (k v : String) : config := config.mk [(k, v)] []

/-- A sample message: three `turn` children, the first ending the turn. -/
def m3 : config :=
  config.mk [] [("turn", batch "end" "yes"), ("turn", batch "n" "2"), ("turn", batch "n" "3")]

/-- A sample message: a `turn` child whose replay fails, then one that ends
the turn. -/
def mfail : config :=
  config.mk [] [("turn", batch "fail" "yes"), ("turn", batch "end" "yes")]

/-- The world after the batches `ts` have been replayed in order from `w`. -/
def replay_world {W : Type} (env : environment W) (skip : Bool) : W → List config → W
  | w, [] => w
  | w, t :: ts => replay_world env skip (env.do_replay w t skip).1 ts

/-- The batch of a replay call. -/
def effect.replayed_batch : effect → Option config
  | effect.do_replay t _ _ => some t
  | _ => none

/-- The spelling of a controller in the `controller` attribute. -/
def controller_name : CONTROLLER → String
  | CONTROLLER.HUMAN => "human"
  | CONTROLLER.AI => "ai"
  | CONTROLLER.NETWORK => "network"

/-- A sample message with one `change_controller` child. -/
def mcc (side ctl : String) : config :=
  config.mk [] [("change_controller", config.mk [("side", side), ("controller", ctl)] [])]

/-- A sample message with a `turn` child, a `change_controller` child, a
`side_drop` attribute and a `leave_game` child. -/
def mleave_all : config :=
  config.mk [("side_drop", "3")]
    [("turn", batch "n" "1"),
     ("change_controller", config.mk [("side", "2"), ("controller", "ai")] []),
     ("leave_game", config.empty)]

/-- The sample state with the leader of side 3 dead. -/
def sample_state_no_leader3 : turn_info (List Nat) := { sample_state with world := [1, 2] }

/-- A sample message with `side_drop=3`. -/
def msd : config := config.mk [("side_drop", "3")] []

/-- A sample message with a given `side_drop` text. -/
def msd_text (s : String) : config := config.mk [("side_drop", s)] []

/-- The state after the messages of a queue have been received and dispatched
in order, each with a fresh backlog and `skip_replay = false`. -/
def dispatch_state {W : Type} (env : environment W) :
    turn_info W → List (config × connection) → turn_info W
  | ti, [] => { ti with inbound := [] }
  | ti, (cfg, res) :: rest =>
    dispatch_state env
      (process_network_data env { ti with inbound := rest } cfg res [] false).state rest

/-- The effects of receiving and dispatching the messages of a queue in
order: for each message its receipt, then the effects of its dispatch with
the origin reported, a fresh backlog and `skip_replay = false`. -/
def dispatch_effects {W : Type} (env : environment W) :
    turn_info W → List (config × connection) → List effect
  | _, [] => []
  | ti, (cfg, res) :: rest =>
    effect.receive_data cfg res
      :: ((process_network_data env { ti with inbound := rest } cfg res [] false).effects
        ++ dispatch_effects env
          (process_network_data env { ti with inbound := rest } cfg res [] false).state rest)

/-- No dispatch of the queue fails: each call of `process_network_data`, made
in the state the calls before it left, returns. -/
def dispatch_succeeds {W : Type} (env : environment W) :
    turn_info W → List (config × connection) → Prop
  | _, [] => True
  | ti, (cfg, res) :: rest =>
    (∃ r, (process_network_data env { ti with inbound := rest } cfg res [] false).result
        = Except.ok r)
    ∧ dispatch_succeeds env
        (process_network_data env { ti with inbound := rest } cfg res [] false).state rest

/-- The message and origin of a receipt. -/
def effect.received : effect → Option (config × connection)
  | effect.receive_data cfg res => some (cfg, res)
  | _ => none

/-- Whether an effect is a call on the outgoing replay buffer. -/
def effect.is_flush : effect → Bool
  | effect.commit_and_sync => true
  | effect.sync_non_undoable => true
  | _ => false

/-- A sample state without connections and with one pending message. -/
def sample_state_offline : turn_info (List Nat) :=
  { sample_state with nconnections := 0, inbound := [(m3, 1)], undo_stack_ := [⟨0⟩] }

/-- A sample state with one connection and two pending messages. -/
def sample_state_online : turn_info (List Nat) :=
  { sample_state with inbound := [(mfail, 1), (mcc "2" "ai", 2)] }

/-- A sample message: a `change_controller` child with an unknown controller
and a `leave_game` child. -/
def mleave_cc : config :=
  config.mk []
    [("change_controller", config.mk [("side", "2"), ("controller", "robot")] []),
     ("leave_game", config.empty)]

/-- The batch of a send-history mark. -/
def effect.marked_batch : effect → Option config
  | effect.add_config_mark_as_sent t => some t
  | _ => none

/-- A sample message: two `turn` children whose replay fails. -/
def mfail2 : config :=
  config.mk [] [("turn", batch "fail" "yes"), ("turn", batch "fail" "yes")]

/-- A sample message: a `change_controller` child with the out-of-range side
9, and `side_drop=3`. -/
def mcc9_drop : config :=
  config.mk [("side_drop", "3")]
    [("change_controller", config.mk [("side", "9"), ("controller", "ai")] [])]

/-- A sample message: a `change_controller` child with side 2 and controller
ai, and `side_drop=3`. -/
def mcc2_drop : config :=
  config.mk [("side_drop", "3")]
    [("change_controller", config.mk [("side", "2"), ("controller", "ai")] [])]

/-! ## Theorems -/

/-- The effects of the loop over the `turn` children are replay calls,
out-of-sync broadcasts, replay-error notifications and send-history marks. -/
theorem mem_replay_turns_effects {W : Type} (env : environment W) (skip : Bool)
    (ts : List config) (turn_end : Bool) (w : W) (backlog : List config) (e : effect)
    (he : e ∈ (replay_turns env skip ts turn_end w backlog).effects) :
    (∃ t r, e = effect.do_replay t skip r) ∨ e = effect.send_data out_of_sync_message
      ∨ (∃ m, e = effect.replay_error m) ∨ (∃ t, e = effect.add_config_mark_as_sent t) := by
  induction ts generalizing turn_end w backlog with
  | nil => simp [replay_turns] at he
  | cons t ts ih =>
    unfold replay_turns at he
    split at he
    · split at he
      · simp only [List.mem_cons] at he
        rcases he with h | h | h
        · exact Or.inl ⟨_, _, h⟩
        · exact Or.inr (Or.inr (Or.inr ⟨_, h⟩))
        · exact ih _ _ _ h
      · simp only [List.mem_cons] at he
        rcases he with h | h | h | h | h
        · exact Or.inl ⟨_, _, h⟩
        · exact Or.inr (Or.inl h)
        · exact Or.inr (Or.inr (Or.inl ⟨_, h⟩))
        · exact Or.inr (Or.inr (Or.inr ⟨_, h⟩))
        · exact ih _ _ _ h
    · exact ih _ _ _ he

/-- The effects of the `switch` of the side-drop block: none, or the one
broadcast of a controller change. -/
theorem side_drop_switch_effects {W : Type} (ti : turn_info W) (cfg : config) (side : Nat)
    (action : Int) (observers : List String) :
    (side_drop_switch ti cfg side action observers).2.1 = [] ∨
      ∃ name, (side_drop_switch ti cfg side action observers).2.1
        = [effect.send_data (change_side_controller_message (cfg.attr "side_drop") name false)] := by
  unfold side_drop_switch
  split
  · exact Or.inl rfl
  · split
    · exact Or.inl rfl
    · split
      · simp only []
        split
        · exact Or.inr ⟨_, rfl⟩
        · exact Or.inl rfl
      · exact Or.inl rfl

/-- A message built by `change_side_controller` has a `change_controller` child. -/
theorem change_side_controller_message_child (side player : String) (own_side : Bool) :
    ((change_side_controller_message side player own_side).child "change_controller").isSome := by
  simp [change_side_controller_message, config.child, config.get_children, config.add_child,
    config.children, config.empty]

/-- The effects of the side-drop block are a log line, a dialog, or the
broadcast of a controller change. -/
theorem mem_side_drop_step_effects {W : Type} (env : environment W) (ti : turn_info W)
    (cfg : config) (e : effect) (he : e ∈ (side_drop_step env ti cfg).2.1) :
    (∃ n, e = effect.log_unknown_side n) ∨ (∃ m o, e = effect.show_dialog2 m o)
      ∨ (∃ side name, e = effect.send_data (change_side_controller_message side name false)) := by
  unfold side_drop_step at he
  simp only at he
  split at he
  · simp at he
    exact Or.inl ⟨_, he⟩
  · split at he
    · simp only [List.mem_cons] at he
      rcases he with h | h
      · exact Or.inr (Or.inl ⟨_, _, h⟩)
      · rcases side_drop_switch_effects ti cfg (side_drop_index cfg) _ ti.gui_observers with
          h0 | ⟨n, h0⟩
        · rw [h0] at h; simp at h
        · rw [h0] at h; simp at h
          exact Or.inr (Or.inr ⟨_, _, h⟩)
    · rcases side_drop_switch_effects ti cfg (side_drop_index cfg) 0 [] with h0 | ⟨n, h0⟩
      · rw [h0] at he; simp at he
      · rw [h0] at he; simp at he
        exact Or.inr (Or.inr ⟨_, _, he⟩)

/-- Without a `leave_game` child the effects are those of the whisper block,
the forwarding block, the replay loop and then the side-drop block, if any. -/
theorem process_network_data_effects {W : Type} (env : environment W) (ti : turn_info W)
    (cfg : config) (from_ : connection) (backlog : List config) (skip : Bool)
    (hleave : cfg.child "leave_game" = none) :
    ∃ tail, (process_network_data env ti cfg from_ backlog skip).effects
        = whisper_effects env cfg ++ forward_effects cfg (cfg.get_children "turn") from_
          ++ (replay_turns env skip (cfg.get_children "turn") false ti.world backlog).effects
          ++ tail
      ∧ ∀ e ∈ tail, (∃ n, e = effect.log_unknown_side n) ∨ (∃ m o, e = effect.show_dialog2 m o)
          ∨ (∃ side name, e = effect.send_data (change_side_controller_message side name false)) := by
  unfold process_network_data
  simp only [hleave, Option.isSome_none, Bool.false_eq_true, if_false]
  split
  · exact ⟨[], by simp, by simp⟩
  · split
    · exact ⟨_, rfl, fun e he => mem_side_drop_step_effects _ _ _ e he⟩
    · exact ⟨[], by simp, by simp⟩

/-- Without a `leave_game` child the backlog returned is the one the replay
loop leaves. -/
theorem process_network_data_backlog {W : Type} (env : environment W) (ti : turn_info W)
    (cfg : config) (from_ : connection) (backlog : List config) (skip : Bool)
    (hleave : cfg.child "leave_game" = none) :
    (process_network_data env ti cfg from_ backlog skip).backlog
      = (replay_turns env skip (cfg.get_children "turn") false ti.world backlog).backlog := by
  unfold process_network_data
  simp only [hleave, Option.isSome_none, Bool.false_eq_true, if_false]
  split
  · rfl
  · split <;> rfl

/-- The effects of the whisper block are a sound and a chat line. -/
theorem mem_whisper_effects {W : Type} (env : environment W) (cfg : config) (e : effect)
    (he : e ∈ whisper_effects env cfg) :
    e = effect.play_sound_receive_message ∨ ∃ s m, e = effect.add_chat_message s m := by
  unfold whisper_effects at he
  split at he
  · split at he
    · simp only [List.mem_cons, List.mem_singleton] at he
      rcases he with h | h | h
      · exact Or.inl h
      · exact Or.inr ⟨_, _, h⟩
      · simp at h
    · simp at he
  · simp at he

/-- With a `leave_game` child the call throws after the whisper block. -/
theorem process_network_data_leave {W : Type} (env : environment W) (ti : turn_info W)
    (cfg : config) (from_ : connection) (backlog : List config) (skip : Bool)
    (hleave : (cfg.child "leave_game").isSome = true) :
    process_network_data env ti cfg from_ backlog skip
      = ⟨{ ti with gui_observers := remove_observers cfg (add_observers cfg ti.gui_observers) },
          backlog, whisper_effects env cfg, Except.error ⟨""⟩⟩ := by
  unfold process_network_data
  simp only [hleave, if_true]

/-- Once `turn_end` is set the loop replays nothing and defers every batch. -/
theorem replay_turns_after_end {W : Type} (env : environment W) (skip : Bool)
    (ts : List config) (w : W) (backlog : List config) :
    replay_turns env skip ts true w backlog
      = ⟨w, true, backlog ++ ts.map backlog_entry, []⟩ := by
  induction ts generalizing backlog with
  | nil => simp [replay_turns]
  | cons t ts ih =>
    unfold replay_turns
    simp only [Bool.true_eq_false, if_false]
    rw [ih]
    simp

/-- The loop on batches of which the first to end the turn is `tk`. -/
theorem replay_turns_until_end {W : Type} (env : environment W) (skip : Bool)
    (pre : List config) (tk : config) (post : List config) (w : W) (backlog : List config)
    (hpre : ∀ p1 t p2, pre = p1 ++ t :: p2 →
      (env.do_replay (replay_world env skip w p1) t skip).2 ≠ Except.ok true)
    (hk : (env.do_replay (replay_world env skip w pre) tk skip).2 = Except.ok true) :
    (replay_turns env skip (pre ++ tk :: post) false w backlog).turn_end = true
    ∧ (replay_turns env skip (pre ++ tk :: post) false w backlog).backlog
        = backlog ++ post.map backlog_entry
    ∧ (replay_turns env skip (pre ++ tk :: post) false w backlog).effects.filterMap
        effect.replayed_batch = pre ++ [tk] := by
  induction pre generalizing w with
  | nil =>
    simp only [List.nil_append]
    unfold replay_turns
    simp only [if_true]
    simp only [replay_world] at hk
    split
    · rename_i w1 ended heq
      rw [heq] at hk
      simp only [Except.ok.injEq] at hk
      subst hk
      rw [replay_turns_after_end]
      simp [effect.replayed_batch]
    · rename_i w1 m heq
      rw [heq] at hk
      cases hk
  | cons t0 pre ih =>
    have h0 := hpre [] t0 pre rfl
    simp only [replay_world] at h0
    have hpre1 : ∀ p1 t p2, pre = p1 ++ t :: p2 →
        (env.do_replay (replay_world env skip (env.do_replay w t0 skip).1 p1) t skip).2
          ≠ Except.ok true := by
      intro p1 t p2 hp
      have := hpre (t0 :: p1) t p2 (by rw [hp]; rfl)
      simpa [replay_world] using this
    have hk1 : (env.do_replay (replay_world env skip (env.do_replay w t0 skip).1 pre) tk skip).2
        = Except.ok true := by
      simpa [replay_world] using hk
    have ih1 := ih (env.do_replay w t0 skip).1 hpre1 hk1
    simp only [List.cons_append]
    unfold replay_turns
    simp only [if_true]
    split
    · rename_i w1 ended heq
      rw [heq] at h0 ih1
      have hended : ended = false := by
        cases ended with
        | false => rfl
        | true => exact absurd rfl h0
      subst hended
      simp only at ih1
      refine ⟨ih1.1, ih1.2.1, ?_⟩
      simp [effect.replayed_batch, ih1.2.2]
    · rename_i w1 m heq
      rw [heq] at ih1
      simp only at ih1
      refine ⟨ih1.1, ih1.2.1, ?_⟩
      simp [effect.replayed_batch, ih1.2.2]

/-- Without a `leave_game` child, when the `change_controller` block falls
through and `side_drop` is empty, the call returns by its last line. -/
theorem process_network_data_fallthrough {W : Type} (env : environment W) (ti : turn_info W)
    (cfg : config) (from_ : connection) (backlog : List config) (skip : Bool)
    (hleave : cfg.child "leave_game" = none)
    (hstep : change_controller_step (state_after_turns env ti cfg backlog skip) cfg = none)
    (hdrop : cfg.attr "side_drop" = "") :
    process_network_data env ti cfg from_ backlog skip
      = ⟨state_after_turns env ti cfg backlog skip,
          (replay_turns env skip (cfg.get_children "turn") false ti.world backlog).backlog,
          whisper_effects env cfg ++ forward_effects cfg (cfg.get_children "turn") from_
            ++ (replay_turns env skip (cfg.get_children "turn") false ti.world backlog).effects,
          Except.ok (if (replay_turns env skip (cfg.get_children "turn") false ti.world
              backlog).turn_end then PROCESS_DATA_RESULT.PROCESS_END_TURN
            else PROCESS_DATA_RESULT.PROCESS_CONTINUE)⟩ := by
  unfold state_after_turns at hstep
  unfold process_network_data
  simp only [hleave, Option.isSome_none, Bool.false_eq_true, if_false]
  rw [hstep]
  simp only [hdrop, ne_eq, not_true_eq_false, if_false]
  rfl

/-- Without a `change_controller` child the block falls through. -/
theorem change_controller_step_no_child {W : Type} (ti : turn_info W) (cfg : config)
    (h : cfg.child "change_controller" = none) : change_controller_step ti cfg = none := by
  unfold change_controller_step
  rw [h]

/-- The whisper and forwarding blocks replay nothing. -/
theorem filterMap_replayed_batch_head {W : Type} (env : environment W) (cfg : config)
    (turns : List config) (from_ : connection) :
    (whisper_effects env cfg ++ forward_effects cfg turns from_).filterMap effect.replayed_batch
      = [] := by
  rw [List.filterMap_eq_nil_iff]
  intro e he
  rcases List.mem_append.mp he with he | he
  · rcases mem_whisper_effects env cfg e he with h | ⟨_, _, h⟩ <;> subst h <;> rfl
  · unfold forward_effects at he
    split at he
    · simp only [List.mem_singleton] at he
      subst he
      rfl
    · simp at he

/-- A failed replay at work: the first batch raises `desync`, which is
broadcast, notified and marked; the second batch is then replayed and ends
the turn. -/
theorem failed_replay_example :
    (process_network_data (sample_env 0) sample_state mfail null_connection [] false).effects
        = [effect.do_replay (batch "fail" "yes") false (Except.error "desync"),
            effect.send_data out_of_sync_message,
            effect.replay_error "desync",
            effect.add_config_mark_as_sent (batch "fail" "yes"),
            effect.do_replay (batch "end" "yes") false (Except.ok true),
            effect.add_config_mark_as_sent (batch "end" "yes")]
    ∧ (process_network_data (sample_env 0) sample_state mfail null_connection [] false).result
        = Except.ok PROCESS_DATA_RESULT.PROCESS_END_TURN :=
  ⟨rfl, rfl⟩

/-- C3: for a message without `leave_game`, `change_controller` and
`side_drop` whose `turn` children are `pre ++ tk :: post`, where no batch of
`pre` ends the turn when replayed in order and `tk` does, the result is
`PROCESS_END_TURN`, the batches replayed are exactly `pre ++ [tk]` in order,
and the backlog is the old one followed by one fresh message per batch of
`post`, in order, each holding that batch as its single `turn` child. -/
theorem C3_end_turn_defers_rest {W : Type} (env : environment W) (ti : turn_info W)
    (cfg : config) (from_ : connection) (backlog : List config) (skip : Bool)
    (pre : List config) (tk : config) (post : List config)
    (hleave : cfg.child "leave_game" = none)
    (hchange : cfg.child "change_controller" = none)
    (hdrop : cfg.attr "side_drop" = "")
    (hturns : cfg.get_children "turn" = pre ++ tk :: post)
    (hpre : ∀ p1 t p2, pre = p1 ++ t :: p2 →
      (env.do_replay (replay_world env skip ti.world p1) t skip).2 ≠ Except.ok true)
    (hk : (env.do_replay (replay_world env skip ti.world pre) tk skip).2 = Except.ok true) :
    (process_network_data env ti cfg from_ backlog skip).result
        = Except.ok PROCESS_DATA_RESULT.PROCESS_END_TURN
    ∧ (process_network_data env ti cfg from_ backlog skip).effects.filterMap
        effect.replayed_batch = pre ++ [tk]
    ∧ (process_network_data env ti cfg from_ backlog skip).backlog
        = backlog ++ post.map (fun t => config.mk [] [("turn", t)]) := by
  have hloop := replay_turns_until_end env skip pre tk post ti.world backlog hpre hk
  rw [process_network_data_fallthrough env ti cfg from_ backlog skip hleave
    (change_controller_step_no_child _ _ hchange) hdrop, hturns]
  refine ⟨?_, ?_, ?_⟩
  · simp only [hloop.1, if_true]
  · simp only
    rw [List.filterMap_append, filterMap_replayed_batch_head, hloop.2.2]
    rfl
  · simp only
    rw [hloop.2.1]
    rfl

/-- C3 at three `turn` children of which the first ends the turn. -/
theorem C3_witness :
    m3.child "leave_game" = none ∧ m3.child "change_controller" = none
    ∧ m3.attr "side_drop" = ""
    ∧ m3.get_children "turn" = [] ++ batch "end" "yes" :: [batch "n" "2", batch "n" "3"]
    ∧ (process_network_data (sample_env 0) sample_state m3 1 [] false).result
        = Except.ok PROCESS_DATA_RESULT.PROCESS_END_TURN
    ∧ (process_network_data (sample_env 0) sample_state m3 1 [] false).effects.filterMap
        effect.replayed_batch = [batch "end" "yes"]
    ∧ (process_network_data (sample_env 0) sample_state m3 1 [] false).backlog
        = [config.mk [] [("turn", batch "n" "2")], config.mk [] [("turn", batch "n" "3")]] :=
  ⟨rfl, rfl, rfl, rfl,
    C3_end_turn_defers_rest (sample_env 0) sample_state m3 1 [] false [] (batch "end" "yes")
      [batch "n" "2", batch "n" "3"] rfl rfl rfl rfl
      (fun p1 t p2 h => by cases p1 <;> cases h) rfl⟩

/-- The value of `lexical_cast_default` lies in the range of `int` when the
default does. -/
theorem lexical_cast_default_range (s : String) (d : Int) (hlo : -(2 ^ 31) ≤ d)
    (hhi : d ≤ 2 ^ 31 - 1) :
    -(2 ^ 31) ≤ lexical_cast_default s d ∧ lexical_cast_default s d ≤ 2 ^ 31 - 1 := by
  unfold lexical_cast_default
  split
  · exact ⟨hlo, hhi⟩
  · split
    · assumption
    · exact ⟨hlo, hhi⟩

/-- A side between 1 and 2^31 - 1 gives the index `side - 1`. -/
theorem index_of_side_in_range (s : Nat) (hlo : 1 ≤ s) (hhi : (s : Int) ≤ 2 ^ 31 - 1) :
    to_size_t (wrap_int ((s : Int) - 1)) = s - 1 := by
  unfold to_size_t wrap_int
  omega

/-- A side of type `int` outside `1..n`, with `n` below 2^31, gives an index
that is not below `n`. -/
theorem index_of_side_out_of_range (s : Int) (n : Nat) (hn : n < 2 ^ 31)
    (hlo : -(2 ^ 31) ≤ s) (hhi : s ≤ 2 ^ 31 - 1) (hs : s < 1 ∨ (n : Int) < s) :
    n ≤ to_size_t (wrap_int (s - 1)) := by
  unfold to_size_t wrap_int
  omega

/-- Applying a setter that stores a constant is `List.set`. -/
theorem modify_team_eq_set (f : team → team) (v : team) (hf : ∀ t, f t = v)
    (l : List team) (i : Nat) : modify_team f l i = l.set i v := by
  induction l generalizing i with
  | nil => rfl
  | cons t ts ih =>
    cases i with
    | zero => simp [modify_team, hf]
    | succ n => simp [modify_team, ih]

/-- Without a `leave_game` child, when the `change_controller` block applies,
the call returns `PROCESS_RESTART_TURN` in the state that block leaves. -/
theorem process_network_data_change {W : Type} (env : environment W) (ti : turn_info W)
    (cfg : config) (from_ : connection) (backlog : List config) (skip : Bool)
    (ti3 : turn_info W)
    (hleave : cfg.child "leave_game" = none)
    (hstep : change_controller_step (state_after_turns env ti cfg backlog skip) cfg = some ti3) :
    (process_network_data env ti cfg from_ backlog skip).state = ti3
    ∧ (process_network_data env ti cfg from_ backlog skip).result
        = Except.ok PROCESS_DATA_RESULT.PROCESS_RESTART_TURN := by
  unfold state_after_turns at hstep
  unfold process_network_data
  simp only [hleave, Option.isSome_none, Bool.false_eq_true, if_false]
  rw [hstep]
  exact ⟨rfl, rfl⟩

/-- C4: for a message without `leave_game` whose `change_controller` child
has side `s` with `1 ≤ s ≤` number of teams and controller `c` (human, network
or ai), the call sets team index `s - 1` to `c` and no other team, sets
the displayed team to `s - 1` when `c` is human and leaves it otherwise, and
returns `PROCESS_RESTART_TURN`. -/
theorem C4_change_controller_in_range {W : Type} (env : environment W) (ti : turn_info W)
    (cfg : config) (from_ : connection) (backlog : List config) (skip : Bool)
    (change : config) (s : Nat) (c : CONTROLLER)
    (hleave : cfg.child "leave_game" = none)
    (hchange : cfg.child "change_controller" = some change)
    (hside : lexical_cast_default (change.attr "side") 1 = (s : Int))
    (hlo : 1 ≤ s) (hhi : s ≤ ti.teams_.length)
    (hctl : change.attr "controller" = controller_name c) :
    (process_network_data env ti cfg from_ backlog skip).state.teams_
        = ti.teams_.set (s - 1) ⟨c⟩
    ∧ (process_network_data env ti cfg from_ backlog skip).state.gui_team
        = (if c = CONTROLLER.HUMAN then s - 1 else ti.gui_team)
    ∧ (process_network_data env ti cfg from_ backlog skip).result
        = Except.ok PROCESS_DATA_RESULT.PROCESS_RESTART_TURN := by
  have hr := lexical_cast_default_range (change.attr "side") 1 (by norm_num) (by norm_num)
  rw [hside] at hr
  have hidx : change_controller_index change = s - 1 := by
    unfold change_controller_index
    rw [hside]
    exact index_of_side_in_range s hlo hr.2
  have hlt : s - 1 < ti.teams_.length := by omega
  cases c with
  | HUMAN =>
    have hstep : change_controller_step (state_after_turns env ti cfg backlog skip) cfg
        = some { state_after_turns env ti cfg backlog skip with
            teams_ := ti.teams_.set (s - 1) ⟨CONTROLLER.HUMAN⟩, gui_team := s - 1 } := by
      unfold change_controller_step
      simp only [hchange, hidx, hctl, controller_name, state_after_turns, hlt, if_true]
      rw [modify_team_eq_set team.make_human ⟨CONTROLLER.HUMAN⟩ (fun _ => rfl)]
    obtain ⟨h1, h2⟩ := process_network_data_change env ti cfg from_ backlog skip _ hleave hstep
    rw [h1, h2]
    exact ⟨rfl, by simp, rfl⟩
  | AI =>
    have hstep : change_controller_step (state_after_turns env ti cfg backlog skip) cfg
        = some { state_after_turns env ti cfg backlog skip with
            teams_ := ti.teams_.set (s - 1) ⟨CONTROLLER.AI⟩ } := by
      unfold change_controller_step
      have e1 : ¬ ("ai" = "human") := by decide
      have e2 : ¬ ("ai" = "network") := by decide
      simp only [hchange, hidx, hctl, controller_name, state_after_turns, hlt, if_true, e1, e2,
        if_false]
      rw [modify_team_eq_set team.make_ai ⟨CONTROLLER.AI⟩ (fun _ => rfl)]
    obtain ⟨h1, h2⟩ := process_network_data_change env ti cfg from_ backlog skip _ hleave hstep
    rw [h1, h2]
    exact ⟨rfl, by simp [state_after_turns], rfl⟩
  | NETWORK =>
    have hstep : change_controller_step (state_after_turns env ti cfg backlog skip) cfg
        = some { state_after_turns env ti cfg backlog skip with
            teams_ := ti.teams_.set (s - 1) ⟨CONTROLLER.NETWORK⟩ } := by
      unfold change_controller_step
      have e1 : ¬ ("network" = "human") := by decide
      simp only [hchange, hidx, hctl, controller_name, state_after_turns, hlt, if_true, e1,
        if_false]
      rw [modify_team_eq_set team.make_network ⟨CONTROLLER.NETWORK⟩ (fun _ => rfl)]
    obtain ⟨h1, h2⟩ := process_network_data_change env ti cfg from_ backlog skip _ hleave hstep
    rw [h1, h2]
    exact ⟨rfl, by simp [state_after_turns], rfl⟩

/-- C4 at `change_controller` with `side=2`, `controller=ai` on three teams:
team index 1 becomes AI and the result is `PROCESS_RESTART_TURN`. -/
theorem C4_witness :
    (mcc "2" "ai").child "leave_game" = none
    ∧ (mcc "2" "ai").child "change_controller"
        = some (config.mk [("side", "2"), ("controller", "ai")] [])
    ∧ lexical_cast_default ((config.mk [("side", "2"), ("controller", "ai")] []).attr "side") 1
        = ((2 : Nat) : Int)
    ∧ 2 ≤ sample_state.teams_.length
    ∧ (process_network_data (sample_env 0) sample_state (mcc "2" "ai") 1 [] false).state.teams_
        = [⟨CONTROLLER.HUMAN⟩, ⟨CONTROLLER.AI⟩, ⟨CONTROLLER.NETWORK⟩]
    ∧ (process_network_data (sample_env 0) sample_state (mcc "2" "ai") 1 [] false).state.gui_team
        = 0
    ∧ (process_network_data (sample_env 0) sample_state (mcc "2" "ai") 1 [] false).result
        = Except.ok PROCESS_DATA_RESULT.PROCESS_RESTART_TURN :=
  ⟨rfl, rfl, by decide, by decide,
    C4_change_controller_in_range (sample_env 0) sample_state (mcc "2" "ai") 1 [] false
      (config.mk [("side", "2"), ("controller", "ai")] []) 2 CONTROLLER.AI rfl rfl (by decide)
      (by decide) (by decide) rfl⟩

/-- The loop ends with `turn_end` set exactly when it started so or one of
its replays returned true. -/
theorem replay_turns_turn_end_iff {W : Type} (env : environment W) (skip : Bool)
    (ts : List config) (turn_end : Bool) (w : W) (backlog : List config) :
    (replay_turns env skip ts turn_end w backlog).turn_end = true ↔
      turn_end = true ∨ ∃ t, effect.do_replay t skip (Except.ok true)
        ∈ (replay_turns env skip ts turn_end w backlog).effects := by
  induction ts generalizing turn_end w backlog with
  | nil => simp [replay_turns]
  | cons t0 ts ih =>
    unfold replay_turns
    split
    · rename_i hte
      split
      · rename_i w1 ended heq
        simp only [ih, hte, Bool.false_eq_true, false_or, List.mem_cons, effect.do_replay.injEq,
          Except.ok.injEq, true_and, reduceCtorEq, false_and]
        constructor
        · rintro (h | ⟨t, h⟩)
          · exact ⟨t0, Or.inl ⟨rfl, h.symm⟩⟩
          · exact ⟨t, Or.inr h⟩
        · rintro ⟨t, h | h⟩
          · exact Or.inl h.2.symm
          · exact Or.inr ⟨t, h⟩
      · rename_i w1 m heq
        simp only [ih, hte, Bool.false_eq_true, false_or, List.mem_cons, effect.do_replay.injEq,
          reduceCtorEq, and_false, false_and]
    · rename_i hte
      have : turn_end = true := by simpa using hte
      subst this
      rw [replay_turns_after_end]
      simp

/-- An out-of-range `change_controller` child makes the block fall through. -/
theorem change_controller_step_out_of_range {W : Type} (ti : turn_info W) (cfg : config)
    (h : ∀ change, cfg.child "change_controller" = some change →
      ti.teams_.length ≤ change_controller_index change) :
    change_controller_step ti cfg = none := by
  unfold change_controller_step
  split
  · rename_i change hc
    simp only
    rw [if_neg (Nat.not_lt.mpr (h change hc))]
  · rfl

/-- C5: for a message without `leave_game` and with an empty `side_drop`
whose `change_controller` child has a side outside `1..` number of teams
(zero and negative sides included), no team and no displayed team changes,
and the result is `PROCESS_END_TURN` exactly when a replay of this call
returned true, and `PROCESS_CONTINUE` exactly when none did. -/
theorem C5_change_controller_out_of_range {W : Type} (env : environment W) (ti : turn_info W)
    (cfg : config) (from_ : connection) (backlog : List config) (skip : Bool)
    (change : config) (s : Int)
    (hteams : ti.teams_.length < 2 ^ 31)
    (hleave : cfg.child "leave_game" = none)
    (hdrop : cfg.attr "side_drop" = "")
    (hchange : cfg.child "change_controller" = some change)
    (hside : lexical_cast_default (change.attr "side") 1 = s)
    (hout : s < 1 ∨ (ti.teams_.length : Int) < s) :
    (process_network_data env ti cfg from_ backlog skip).state.teams_ = ti.teams_
    ∧ (process_network_data env ti cfg from_ backlog skip).state.gui_team = ti.gui_team
    ∧ ((process_network_data env ti cfg from_ backlog skip).result
          = Except.ok PROCESS_DATA_RESULT.PROCESS_END_TURN ↔
        ∃ t, effect.do_replay t skip (Except.ok true)
          ∈ (process_network_data env ti cfg from_ backlog skip).effects)
    ∧ ((process_network_data env ti cfg from_ backlog skip).result
          = Except.ok PROCESS_DATA_RESULT.PROCESS_CONTINUE ↔
        ¬ ∃ t, effect.do_replay t skip (Except.ok true)
          ∈ (process_network_data env ti cfg from_ backlog skip).effects) := by
  have hr := lexical_cast_default_range (change.attr "side") 1 (by norm_num) (by norm_num)
  rw [hside] at hr
  have hidx : ti.teams_.length ≤ change_controller_index change := by
    unfold change_controller_index
    rw [hside]
    exact index_of_side_out_of_range s _ hteams hr.1 hr.2 hout
  have hstep : change_controller_step (state_after_turns env ti cfg backlog skip) cfg = none := by
    apply change_controller_step_out_of_range
    intro ch hch
    rw [hchange] at hch
    cases hch
    exact hidx
  rw [process_network_data_fallthrough env ti cfg from_ backlog skip hleave hstep hdrop]
  have hend := replay_turns_turn_end_iff env skip (cfg.get_children "turn") false ti.world backlog
  simp only [Bool.false_eq_true, false_or] at hend
  have hmem : ∀ t, effect.do_replay t skip (Except.ok true)
      ∈ whisper_effects env cfg ++ forward_effects cfg (cfg.get_children "turn") from_
        ++ (replay_turns env skip (cfg.get_children "turn") false ti.world backlog).effects ↔
      effect.do_replay t skip (Except.ok true)
        ∈ (replay_turns env skip (cfg.get_children "turn") false ti.world backlog).effects := by
    intro t
    constructor
    · intro h
      rcases List.mem_append.mp h with h | h
      · have := filterMap_replayed_batch_head env cfg (cfg.get_children "turn") from_
        rw [List.filterMap_eq_nil_iff] at this
        exact absurd (this _ h) (by simp [effect.replayed_batch])
      · exact h
    · intro h
      exact List.mem_append_right _ h
  simp only [hmem]
  refine ⟨rfl, rfl, ?_, ?_⟩
  · rw [← hend]
    cases (replay_turns env skip (cfg.get_children "turn") false ti.world backlog).turn_end <;> simp
  · rw [← hend]
    cases (replay_turns env skip (cfg.get_children "turn") false ti.world backlog).turn_end <;> simp

/-- C5 at `change_controller` with `side=9` on three teams: no team changes
and, no batch having been replayed, the result is not `PROCESS_END_TURN`. -/
theorem C5_witness :
    sample_state.teams_.length < 2 ^ 31
    ∧ (mcc "9" "ai").child "leave_game" = none
    ∧ (mcc "9" "ai").attr "side_drop" = ""
    ∧ (mcc "9" "ai").child "change_controller"
        = some (config.mk [("side", "9"), ("controller", "ai")] [])
    ∧ lexical_cast_default ((config.mk [("side", "9"), ("controller", "ai")] []).attr "side") 1 = 9
    ∧ (sample_state.teams_.length : Int) < 9
    ∧ (process_network_data (sample_env 0) sample_state (mcc "9" "ai") 1 [] false).state.teams_
        = sample_state.teams_
    ∧ (process_network_data (sample_env 0) sample_state (mcc "9" "ai") 1 [] false).state.gui_team
        = sample_state.gui_team
    ∧ ((process_network_data (sample_env 0) sample_state (mcc "9" "ai") 1 [] false).result
          = Except.ok PROCESS_DATA_RESULT.PROCESS_END_TURN ↔
        ∃ t, effect.do_replay t false (Except.ok true)
          ∈ (process_network_data (sample_env 0) sample_state (mcc "9" "ai") 1 [] false).effects)
    ∧ ((process_network_data (sample_env 0) sample_state (mcc "9" "ai") 1 [] false).result
          = Except.ok PROCESS_DATA_RESULT.PROCESS_CONTINUE ↔
        ¬ ∃ t, effect.do_replay t false (Except.ok true)
          ∈ (process_network_data (sample_env 0) sample_state (mcc "9" "ai") 1 [] false).effects) :=
  ⟨by decide, rfl, by decide, rfl, by decide, by decide,
    C5_change_controller_out_of_range (sample_env 0) sample_state (mcc "9" "ai") 1 [] false
      (config.mk [("side", "9"), ("controller", "ai")] []) 9 (by decide) rfl (by decide) rfl
      (by decide) (Or.inr (by decide))⟩

/-- The value of `atoi` lies in the range of `int`. -/
theorem atoi_range (s : String) : -(2 ^ 31) ≤ atoi s ∧ atoi s ≤ 2 ^ 31 - 1 := by
  unfold atoi
  split
  · norm_num
  · unfold wrap_int
    omega

/-- Without a `leave_game` child, when the `change_controller` block falls
through and `side_drop` is not empty, the call ends in the side-drop block. -/
theorem process_network_data_side_drop {W : Type} (env : environment W) (ti : turn_info W)
    (cfg : config) (from_ : connection) (backlog : List config) (skip : Bool)
    (hleave : cfg.child "leave_game" = none)
    (hstep : change_controller_step (state_after_turns env ti cfg backlog skip) cfg = none)
    (hdrop : cfg.attr "side_drop" ≠ "") :
    process_network_data env ti cfg from_ backlog skip
      = ⟨(side_drop_step env (state_after_turns env ti cfg backlog skip) cfg).1,
          (replay_turns env skip (cfg.get_children "turn") false ti.world backlog).backlog,
          whisper_effects env cfg ++ forward_effects cfg (cfg.get_children "turn") from_
            ++ (replay_turns env skip (cfg.get_children "turn") false ti.world backlog).effects
            ++ (side_drop_step env (state_after_turns env ti cfg backlog skip) cfg).2.1,
          (side_drop_step env (state_after_turns env ti cfg backlog skip) cfg).2.2⟩ := by
  unfold state_after_turns at hstep
  unfold process_network_data
  simp only [hleave, Option.isSome_none, Bool.false_eq_true, if_false]
  rw [hstep]
  simp only [hdrop, ne_eq, not_false_eq_true, if_true]
  rfl

/-- The side-drop block on an in-range side without a leader: no dialog, the
side becomes AI. -/
theorem side_drop_step_no_leader {W : Type} (env : environment W) (ti : turn_info W)
    (cfg : config) (hidx : side_drop_index cfg < ti.teams_.length)
    (hleader : env.find_leader ti.world (side_drop_index cfg + 1) = none) :
    side_drop_step env ti cfg
      = ({ ti with teams_ := ti.teams_.set (side_drop_index cfg) ⟨CONTROLLER.AI⟩ }, [],
          Except.ok PROCESS_DATA_RESULT.PROCESS_RESTART_TURN) := by
  unfold side_drop_step
  simp only [ge_iff_le, Nat.not_le.mpr hidx, if_false, hleader]
  unfold side_drop_switch
  simp only [if_true]
  rw [modify_team_eq_set team.make_ai ⟨CONTROLLER.AI⟩ (fun _ => rfl)]

/-- The effects before the side-drop block hold no dialog. -/
theorem no_dialog_before_side_drop {W : Type} (env : environment W) (ti : turn_info W)
    (cfg : config) (from_ : connection) (backlog : List config) (skip : Bool) (m : String)
    (o : List String) :
    effect.show_dialog2 m o ∉
      whisper_effects env cfg ++ forward_effects cfg (cfg.get_children "turn") from_
        ++ (replay_turns env skip (cfg.get_children "turn") false ti.world backlog).effects := by
  intro h
  rcases List.mem_append.mp h with h | h
  · rcases List.mem_append.mp h with h | h
    · rcases mem_whisper_effects env cfg _ h with h | ⟨_, _, h⟩ <;> cases h
    · unfold forward_effects at h
      split at h
      · simp at h
      · simp at h
  · rcases mem_replay_turns_effects env skip _ _ _ _ _ h with
      ⟨_, _, h⟩ | h | ⟨_, h⟩ | ⟨_, h⟩ <;> cases h

/-- C6: for a message without `leave_game` and without an in-range
`change_controller` whose non-empty `side_drop` reads as a side `s` with
`1 ≤ s ≤` number of teams, when that side has no leader in the world left by
the replays, the call shows no dialog, sets team index `s - 1` to AI and no
other team, and returns `PROCESS_RESTART_TURN`. -/
theorem C6_side_drop_without_leader {W : Type} (env : environment W) (ti : turn_info W)
    (cfg : config) (from_ : connection) (backlog : List config) (skip : Bool) (s : Nat)
    (hleave : cfg.child "leave_game" = none)
    (hnochange : ∀ change, cfg.child "change_controller" = some change →
      ti.teams_.length ≤ change_controller_index change)
    (hdrop : cfg.attr "side_drop" ≠ "")
    (hside : atoi (cfg.attr "side_drop") = (s : Int))
    (hlo : 1 ≤ s) (hhi : s ≤ ti.teams_.length)
    (hleader : env.find_leader (state_after_turns env ti cfg backlog skip).world s = none) :
    (∀ m o, effect.show_dialog2 m o
        ∉ (process_network_data env ti cfg from_ backlog skip).effects)
    ∧ (process_network_data env ti cfg from_ backlog skip).state.teams_
        = ti.teams_.set (s - 1) ⟨CONTROLLER.AI⟩
    ∧ (process_network_data env ti cfg from_ backlog skip).result
        = Except.ok PROCESS_DATA_RESULT.PROCESS_RESTART_TURN := by
  have hr := atoi_range (cfg.attr "side_drop")
  rw [hside] at hr
  have hidx : side_drop_index cfg = s - 1 := by
    unfold side_drop_index
    rw [hside]
    exact index_of_side_in_range s hlo hr.2
  have hstep : change_controller_step (state_after_turns env ti cfg backlog skip) cfg = none :=
    change_controller_step_out_of_range _ _ hnochange
  have hs1 : s - 1 + 1 = s := by omega
  have hsd := side_drop_step_no_leader env (state_after_turns env ti cfg backlog skip) cfg
    (by rw [hidx]; show s - 1 < ti.teams_.length; omega) (by rw [hidx, hs1]; exact hleader)
  rw [process_network_data_side_drop env ti cfg from_ backlog skip hleave hstep hdrop, hsd, hidx]
  refine ⟨?_, rfl, rfl⟩
  intro m o
  simp only [List.append_nil]
  exact no_dialog_before_side_drop env ti cfg from_ backlog skip m o

/-- C6 at `side_drop=3` with the leader of side 3 dead: no dialog, team index
2 becomes AI, the result is `PROCESS_RESTART_TURN`. -/
theorem C6_witness :
    msd.child "leave_game" = none
    ∧ msd.child "change_controller" = none
    ∧ msd.attr "side_drop" ≠ ""
    ∧ atoi (msd.attr "side_drop") = 3
    ∧ 3 ≤ sample_state_no_leader3.teams_.length
    ∧ (sample_env 0).find_leader
        (state_after_turns (sample_env 0) sample_state_no_leader3 msd [] false).world 3 = none
    ∧ (∀ m o, effect.show_dialog2 m o
        ∉ (process_network_data (sample_env 0) sample_state_no_leader3 msd 1 [] false).effects)
    ∧ (process_network_data (sample_env 0) sample_state_no_leader3 msd 1 [] false).state.teams_
        = [⟨CONTROLLER.HUMAN⟩, ⟨CONTROLLER.NETWORK⟩, ⟨CONTROLLER.AI⟩]
    ∧ (process_network_data (sample_env 0) sample_state_no_leader3 msd 1 [] false).result
        = Except.ok PROCESS_DATA_RESULT.PROCESS_RESTART_TURN :=
  ⟨rfl, rfl, by decide, by decide, by decide, by decide,
    C6_side_drop_without_leader (sample_env 0) sample_state_no_leader3 msd 1 [] false 3 rfl
      (fun change h => by cases h) (by decide) (by decide) (by decide) (by decide) (by decide)⟩

/-- The side-drop block on an in-range side with a living leader, when the
dialog returns `3 + i` and the roster has an `i`-th observer. -/
theorem side_drop_step_observer {W : Type} (env : environment W) (ti : turn_info W)
    (cfg : config) (description name : String) (i : Nat)
    (hidx : side_drop_index cfg < ti.teams_.length)
    (hleader : env.find_leader ti.world (side_drop_index cfg + 1) = some description)
    (hdialog : env.show_dialog2 ti.world (side_drop_prompt env description)
      (side_drop_options env ti.gui_observers) = 3 + (i : Int))
    (hobs : ti.gui_observers.get? i = some name) :
    side_drop_step env ti cfg
      = ({ ti with teams_ := ti.teams_.set (side_drop_index cfg) ⟨CONTROLLER.NETWORK⟩ },
          [effect.show_dialog2 (side_drop_prompt env description)
              (side_drop_options env ti.gui_observers),
            effect.send_data (change_side_controller_message (cfg.attr "side_drop") name false)],
          Except.ok PROCESS_DATA_RESULT.PROCESS_RESTART_TURN) := by
  unfold side_drop_step
  simp only [ge_iff_le, Nat.not_le.mpr hidx, if_false, hleader, hdialog]
  unfold side_drop_switch
  have h0 : ¬ (3 + (i : Int) = 0) := by omega
  have h1 : ¬ (3 + (i : Int) = 1) := by omega
  have h2 : 3 + (i : Int) > 2 := by omega
  have h3 : (3 + (i : Int) - 3).toNat = i := by omega
  simp only [h0, h1, h2, h3, if_false, if_true, hobs, change_side_controller]
  rw [modify_team_eq_set team.make_network ⟨CONTROLLER.NETWORK⟩ (fun _ => rfl)]

/-- C7 (amended): for a message without `leave_game` and without an in-range
`change_controller` whose non-empty `side_drop` reads as a side `s` with
`1 ≤ s ≤` number of teams, when the leader of that side lives and the dialog
returns `3 + i` with `name` the `i`-th observer of the roster at that time,
the call sets team index `s - 1` to network and no other team, ends its
effects with the dialog and one broadcast of a message whose single child
`change_controller` has exactly the attributes `player = name` and
`side =` the `side_drop` text (no `own_side` attribute), and returns
`PROCESS_RESTART_TURN`. -/
theorem C7_side_drop_to_observer {W : Type} (env : environment W) (ti : turn_info W)
    (cfg : config) (from_ : connection) (backlog : List config) (skip : Bool) (s i : Nat)
    (description name : String)
    (hleave : cfg.child "leave_game" = none)
    (hnochange : ∀ change, cfg.child "change_controller" = some change →
      ti.teams_.length ≤ change_controller_index change)
    (hdrop : cfg.attr "side_drop" ≠ "")
    (hside : atoi (cfg.attr "side_drop") = (s : Int))
    (hlo : 1 ≤ s) (hhi : s ≤ ti.teams_.length)
    (hleader : env.find_leader (state_after_turns env ti cfg backlog skip).world s
      = some description)
    (hdialog : env.show_dialog2 (state_after_turns env ti cfg backlog skip).world
      (side_drop_prompt env description)
      (side_drop_options env (state_after_turns env ti cfg backlog skip).gui_observers)
        = 3 + (i : Int))
    (hobs : (state_after_turns env ti cfg backlog skip).gui_observers.get? i = some name) :
    (process_network_data env ti cfg from_ backlog skip).state.teams_
        = ti.teams_.set (s - 1) ⟨CONTROLLER.NETWORK⟩
    ∧ (process_network_data env ti cfg from_ backlog skip).effects
        = whisper_effects env cfg ++ forward_effects cfg (cfg.get_children "turn") from_
          ++ (replay_turns env skip (cfg.get_children "turn") false ti.world backlog).effects
          ++ [effect.show_dialog2 (side_drop_prompt env description)
                (side_drop_options env (state_after_turns env ti cfg backlog skip).gui_observers),
              effect.send_data (config.mk []
                [("change_controller",
                  config.mk [("player", name), ("side", cfg.attr "side_drop")] [])])]
    ∧ (process_network_data env ti cfg from_ backlog skip).result
        = Except.ok PROCESS_DATA_RESULT.PROCESS_RESTART_TURN := by
  have hr := atoi_range (cfg.attr "side_drop")
  rw [hside] at hr
  have hidx : side_drop_index cfg = s - 1 := by
    unfold side_drop_index
    rw [hside]
    exact index_of_side_in_range s hlo hr.2
  have hstep : change_controller_step (state_after_turns env ti cfg backlog skip) cfg = none :=
    change_controller_step_out_of_range _ _ hnochange
  have hs1 : s - 1 + 1 = s := by omega
  have hsd := side_drop_step_observer env (state_after_turns env ti cfg backlog skip) cfg
    description name i (by rw [hidx]; show s - 1 < ti.teams_.length; omega)
    (by rw [hidx, hs1]; exact hleader) hdialog hobs
  have hmsg : change_side_controller_message (cfg.attr "side_drop") name false
      = config.mk [] [("change_controller",
          config.mk [("player", name), ("side", cfg.attr "side_drop")] [])] := by
    have hlt : lex_less "player".data "side".data = true := by decide
    simp [change_side_controller_message, config.add_child, config.set_attr, config.empty,
      config.values, config.children, config.insert_value, hlt]
  rw [process_network_data_side_drop env ti cfg from_ backlog skip hleave hstep hdrop, hsd, hidx,
    hmsg]
  exact ⟨rfl, rfl, rfl⟩

/-- C7 at `side_drop=3`, roster Alice and Bob, dialog result 3: team index 2
becomes network and the broadcast names player Alice and side 3. -/
theorem C7_witness :
    msd.child "leave_game" = none
    ∧ msd.child "change_controller" = none
    ∧ msd.attr "side_drop" ≠ ""
    ∧ atoi (msd.attr "side_drop") = 3
    ∧ 3 ≤ sample_state.teams_.length
    ∧ (sample_env 3).find_leader
        (state_after_turns (sample_env 3) sample_state msd [] false).world 3 = some "Leader"
    ∧ (state_after_turns (sample_env 3) sample_state msd [] false).gui_observers.get? 0
        = some "Alice"
    ∧ (process_network_data (sample_env 3) sample_state msd 1 [] false).state.teams_
        = [⟨CONTROLLER.HUMAN⟩, ⟨CONTROLLER.NETWORK⟩, ⟨CONTROLLER.NETWORK⟩]
    ∧ (process_network_data (sample_env 3) sample_state msd 1 [] false).effects
        = [effect.show_dialog2 "Leader has left the game. What do you want to do?"
              ["Replace with AI", "Replace with local player", "Abort game",
                "Replace with Alice", "Replace with Bob"],
            effect.send_data (config.mk []
              [("change_controller", config.mk [("player", "Alice"), ("side", "3")] [])])]
    ∧ (process_network_data (sample_env 3) sample_state msd 1 [] false).result
        = Except.ok PROCESS_DATA_RESULT.PROCESS_RESTART_TURN :=
  ⟨rfl, rfl, by decide, by decide, by decide, by decide, by decide,
    C7_side_drop_to_observer (sample_env 3) sample_state msd 1 [] false 3 0 "Leader" "Alice" rfl
      (fun change h => by cases h) (by decide) (by decide) (by decide) (by decide) (by decide)
      rfl (by decide)⟩

/-- C7 as stated fails: at `side_drop=3`, roster Alice and Bob, dialog result
3, the one broadcast is `change_controller` with `player=Alice` and `side=3`
only; its `own_side` attribute is absent (it reads as the empty text), not
`no`. -/
theorem C7_counterexample :
    (process_network_data (sample_env 3) sample_state msd 1 [] false).effects
        = [effect.show_dialog2 "Leader has left the game. What do you want to do?"
              ["Replace with AI", "Replace with local player", "Abort game",
                "Replace with Alice", "Replace with Bob"],
            effect.send_data (config.mk []
              [("change_controller", config.mk [("player", "Alice"), ("side", "3")] [])])]
    ∧ (config.mk [("player", "Alice"), ("side", "3")] []).attr "own_side" = ""
    ∧ (config.mk [("player", "Alice"), ("side", "3")] []).attr "own_side" ≠ "no" :=
  ⟨rfl, by decide, by decide⟩

/-- With a `leave_game` child no forwarding call is made. -/
theorem no_forward_of_leave_game {W : Type} (env : environment W) (ti : turn_info W)
    (cfg : config) (from_ : connection) (backlog : List config) (skip : Bool)
    (hleave : (cfg.child "leave_game").isSome = true) :
    ∀ c f, effect.send_data_all_except c f
      ∉ (process_network_data env ti cfg from_ backlog skip).effects := by
  rw [process_network_data_leave env ti cfg from_ backlog skip hleave]
  intro c f h
  rcases mem_whisper_effects env cfg _ h with h | ⟨_, _, h⟩ <;> cases h

/-- C8: `send_data` makes exactly one call on the outgoing buffer, namely
`commit_and_sync` when the undo stack is empty and `sync_non_undoable` when
it is not, and leaves the state, the undo stack included, as it was. -/
theorem C8_send_data_one_operation {W : Type} (ti : turn_info W) :
    (ti.undo_stack_ = [] → (send_data ti).2 = [effect.commit_and_sync])
    ∧ (ti.undo_stack_ ≠ [] → (send_data ti).2 = [effect.sync_non_undoable])
    ∧ (send_data ti).1 = ti
    ∧ (send_data ti).1.undo_stack_ = ti.undo_stack_ := by
  unfold send_data
  cases h : ti.undo_stack_ with
  | nil => simp [h]
  | cons a l => simp [h]

/-- C9: for every message with a `leave_game` child, whatever else it holds
and whatever its origin, the call fails with a `network::error`, having made
no forwarding call, no replay and no send-history mark, and with the backlog,
the teams and the displayed team as they were. -/
theorem C9_leave_game_aborts {W : Type} (env : environment W) (ti : turn_info W)
    (cfg : config) (from_ : connection) (backlog : List config) (skip : Bool)
    (hleave : (cfg.child "leave_game").isSome = true) :
    (process_network_data env ti cfg from_ backlog skip).result = Except.error ⟨""⟩
    ∧ (∀ c f, effect.send_data_all_except c f
        ∉ (process_network_data env ti cfg from_ backlog skip).effects)
    ∧ (∀ t s r, effect.do_replay t s r
        ∉ (process_network_data env ti cfg from_ backlog skip).effects)
    ∧ (∀ t, effect.add_config_mark_as_sent t
        ∉ (process_network_data env ti cfg from_ backlog skip).effects)
    ∧ (process_network_data env ti cfg from_ backlog skip).backlog = backlog
    ∧ (process_network_data env ti cfg from_ backlog skip).state.teams_ = ti.teams_
    ∧ (process_network_data env ti cfg from_ backlog skip).state.gui_team = ti.gui_team := by
  rw [process_network_data_leave env ti cfg from_ backlog skip hleave]
  refine ⟨rfl, ?_, ?_, ?_, rfl, rfl, rfl⟩
  · intro c f h
    rcases mem_whisper_effects env cfg _ h with h | ⟨_, _, h⟩ <;> cases h
  · intro t s r h
    rcases mem_whisper_effects env cfg _ h with h | ⟨_, _, h⟩ <;> cases h
  · intro t h
    rcases mem_whisper_effects env cfg _ h with h | ⟨_, _, h⟩ <;> cases h

/-- C9 at a message with a `turn` child, a `change_controller` child, a
`side_drop` and a `leave_game` child, from origin 1. -/
theorem C9_witness :
    (mleave_all.child "leave_game").isSome = true
    ∧ (process_network_data (sample_env 0) sample_state mleave_all 1 [] false).result
        = Except.error ⟨""⟩
    ∧ (∀ c f, effect.send_data_all_except c f
        ∉ (process_network_data (sample_env 0) sample_state mleave_all 1 [] false).effects)
    ∧ (∀ t s r, effect.do_replay t s r
        ∉ (process_network_data (sample_env 0) sample_state mleave_all 1 [] false).effects)
    ∧ (∀ t, effect.add_config_mark_as_sent t
        ∉ (process_network_data (sample_env 0) sample_state mleave_all 1 [] false).effects)
    ∧ (process_network_data (sample_env 0) sample_state mleave_all 1 [] false).backlog = []
    ∧ (process_network_data (sample_env 0) sample_state mleave_all 1 [] false).state.teams_
        = sample_state.teams_
    ∧ (process_network_data (sample_env 0) sample_state mleave_all 1 [] false).state.gui_team
        = sample_state.gui_team :=
  ⟨rfl, C9_leave_game_aborts (sample_env 0) sample_state mleave_all 1 [] false rfl⟩

/-- C10: for every message, with any number of `turn` children, dispatched
with origin `null_connection`, the effects hold no `send_data_all_except`
call. -/
theorem C10_no_forward_from_null {W : Type} (env : environment W) (ti : turn_info W)
    (cfg : config) (backlog : List config) (skip : Bool) :
    ∀ c f, effect.send_data_all_except c f
      ∉ (process_network_data env ti cfg null_connection backlog skip).effects := by
  intro c f hmem
  cases hl : (cfg.child "leave_game").isSome with
  | true =>
    exact (no_forward_of_leave_game env ti cfg null_connection backlog skip hl) c f hmem
  | false =>
    have hleave : cfg.child "leave_game" = none := by
      cases h : cfg.child "leave_game" with
      | none => rfl
      | some c => rw [h] at hl; cases hl
    obtain ⟨tail, heff, htail⟩ :=
      process_network_data_effects env ti cfg null_connection backlog skip hleave
    have hfwd : forward_effects cfg (cfg.get_children "turn") null_connection = [] := by
      unfold forward_effects
      rw [if_neg]
      exact fun h => h.2 rfl
    rw [heff, hfwd] at hmem
    simp only [List.append_nil, List.mem_append] at hmem
    rcases hmem with (h | h) | h
    · rcases mem_whisper_effects env cfg _ h with h | ⟨_, _, h⟩ <;> cases h
    · rcases mem_replay_turns_effects env skip _ _ _ _ _ h with
        ⟨_, _, h⟩ | h | ⟨_, h⟩ | ⟨_, h⟩ <;> cases h
    · rcases htail _ h with ⟨_, h⟩ | ⟨_, _, h⟩ | ⟨_, _, h⟩ <;> cases h

/-- The side-drop block on an out-of-range index: a log line and a throw. -/
theorem side_drop_step_out_of_range {W : Type} (env : environment W) (ti : turn_info W)
    (cfg : config) (hidx : ti.teams_.length ≤ side_drop_index cfg) :
    side_drop_step env ti cfg
      = (ti, [effect.log_unknown_side (side_drop_index cfg)], Except.error ⟨""⟩) := by
  unfold side_drop_step
  simp only [ge_iff_le, hidx, if_true]

/-- The side-drop block on an in-range side with a living leader: the dialog,
then the `switch` on its answer. -/
theorem side_drop_step_leader {W : Type} (env : environment W) (ti : turn_info W)
    (cfg : config) (description : String)
    (hidx : side_drop_index cfg < ti.teams_.length)
    (hleader : env.find_leader ti.world (side_drop_index cfg + 1) = some description) :
    side_drop_step env ti cfg
      = ((side_drop_switch ti cfg (side_drop_index cfg)
            (env.show_dialog2 ti.world (side_drop_prompt env description)
              (side_drop_options env ti.gui_observers)) ti.gui_observers).1,
          effect.show_dialog2 (side_drop_prompt env description)
              (side_drop_options env ti.gui_observers)
            :: (side_drop_switch ti cfg (side_drop_index cfg)
                (env.show_dialog2 ti.world (side_drop_prompt env description)
                  (side_drop_options env ti.gui_observers)) ti.gui_observers).2.1,
          (side_drop_switch ti cfg (side_drop_index cfg)
            (env.show_dialog2 ti.world (side_drop_prompt env description)
              (side_drop_options env ti.gui_observers)) ti.gui_observers).2.2) := by
  unfold side_drop_step
  simp only [ge_iff_le, Nat.not_le.mpr hidx, if_false, hleader]

/-- The `switch` on the answer 2 or on a negative answer throws. -/
theorem side_drop_switch_abort {W : Type} (ti : turn_info W) (cfg : config) (side : Nat)
    (action : Int) (observers : List String) (h : action = 2 ∨ action < 0) :
    side_drop_switch ti cfg side action observers = (ti, [], Except.error ⟨""⟩) := by
  unfold side_drop_switch
  have h0 : ¬ (action = 0) := by omega
  have h1 : ¬ (action = 1) := by omega
  have h2 : ¬ (action > 2) := by omega
  simp only [h0, h1, h2, if_false]

/-- The `switch` on an answer past the last observer makes the side AI. -/
theorem side_drop_switch_stale {W : Type} (ti : turn_info W) (cfg : config) (side : Nat)
    (i : Nat) (observers : List String) (h : observers.length ≤ i) :
    side_drop_switch ti cfg side (3 + (i : Int)) observers
      = ({ ti with teams_ := ti.teams_.set side ⟨CONTROLLER.AI⟩ }, [],
          Except.ok PROCESS_DATA_RESULT.PROCESS_RESTART_TURN) := by
  unfold side_drop_switch
  have h0 : ¬ (3 + (i : Int) = 0) := by omega
  have h1 : ¬ (3 + (i : Int) = 1) := by omega
  have h2 : 3 + (i : Int) > 2 := by omega
  have h3 : (3 + (i : Int) - 3).toNat = i := by omega
  have h4 : observers.get? i = none := List.get?_eq_none.mpr h
  simp only [h0, h1, h2, h3, h4, if_false, if_true]
  rw [modify_team_eq_set team.make_ai ⟨CONTROLLER.AI⟩ (fun _ => rfl)]

/-- The effects before the side-drop block broadcast no controller change. -/
theorem no_change_broadcast_before_side_drop {W : Type} (env : environment W)
    (ti : turn_info W) (cfg : config) (from_ : connection) (backlog : List config)
    (skip : Bool) (c : config)
    (h : effect.send_data c ∈
      whisper_effects env cfg ++ forward_effects cfg (cfg.get_children "turn") from_
        ++ (replay_turns env skip (cfg.get_children "turn") false ti.world backlog).effects) :
    c.child "change_controller" = none := by
  rcases List.mem_append.mp h with h | h
  · rcases List.mem_append.mp h with h | h
    · rcases mem_whisper_effects env cfg _ h with h | ⟨_, _, h⟩ <;> cases h
    · unfold forward_effects at h
      split at h
      · simp at h
      · simp at h
  · rcases mem_replay_turns_effects env skip _ _ _ _ _ h with
      ⟨_, _, h⟩ | h | ⟨_, h⟩ | ⟨_, h⟩
    · cases h
    · cases h
      rfl
    · cases h
    · cases h

/-- C11: for a message without `leave_game` and without an in-range
`change_controller` whose non-empty `side_drop` gives an index that is not
below the number of teams, the call fails with a `network::error`, shows no
dialog and leaves the teams and the displayed team as they were. -/
theorem C11_side_drop_out_of_range {W : Type} (env : environment W) (ti : turn_info W)
    (cfg : config) (from_ : connection) (backlog : List config) (skip : Bool)
    (hleave : cfg.child "leave_game" = none)
    (hnochange : ∀ change, cfg.child "change_controller" = some change →
      ti.teams_.length ≤ change_controller_index change)
    (hdrop : cfg.attr "side_drop" ≠ "")
    (hidx : ti.teams_.length ≤ side_drop_index cfg) :
    (process_network_data env ti cfg from_ backlog skip).result = Except.error ⟨""⟩
    ∧ (∀ m o, effect.show_dialog2 m o
        ∉ (process_network_data env ti cfg from_ backlog skip).effects)
    ∧ (process_network_data env ti cfg from_ backlog skip).state.teams_ = ti.teams_
    ∧ (process_network_data env ti cfg from_ backlog skip).state.gui_team = ti.gui_team := by
  have hstep : change_controller_step (state_after_turns env ti cfg backlog skip) cfg = none :=
    change_controller_step_out_of_range _ _ hnochange
  have hsd := side_drop_step_out_of_range env (state_after_turns env ti cfg backlog skip) cfg hidx
  rw [process_network_data_side_drop env ti cfg from_ backlog skip hleave hstep hdrop, hsd]
  refine ⟨rfl, ?_, rfl, rfl⟩
  intro m o h
  rcases List.mem_append.mp h with h | h
  · exact no_dialog_before_side_drop env ti cfg from_ backlog skip m o h
  · simp at h

/-- A `side_drop` value of type `int` outside `1..n`, with `n` below 2^31,
gives an index that is not below `n`: values above `n`, zero, negative values
and text without a number, which `atoi` reads as zero. -/
theorem side_drop_index_out_of_range (cfg : config) (n : Nat) (hn : n < 2 ^ 31)
    (hs : atoi (cfg.attr "side_drop") < 1 ∨ (n : Int) < atoi (cfg.attr "side_drop")) :
    n ≤ side_drop_index cfg := by
  have hr := atoi_range (cfg.attr "side_drop")
  unfold side_drop_index
  exact index_of_side_out_of_range _ n hn hr.1 hr.2 hs

/-- C11 at `side_drop=abc` on three teams: the text reads as side 0, the
index wraps to 2^64 - 1, and the call fails without a dialog. -/
theorem C11_witness :
    (msd_text "abc").child "leave_game" = none
    ∧ (msd_text "abc").attr "side_drop" ≠ ""
    ∧ atoi ((msd_text "abc").attr "side_drop") = 0
    ∧ side_drop_index (msd_text "abc") = 2 ^ 64 - 1
    ∧ (process_network_data (sample_env 0) sample_state (msd_text "abc") 1 [] false).result
        = Except.error ⟨""⟩
    ∧ (∀ m o, effect.show_dialog2 m o
        ∉ (process_network_data (sample_env 0) sample_state (msd_text "abc") 1 [] false).effects)
    ∧ (process_network_data (sample_env 0) sample_state (msd_text "abc") 1 [] false).state.teams_
        = sample_state.teams_
    ∧ (process_network_data (sample_env 0) sample_state (msd_text "abc") 1 [] false).state.gui_team
        = sample_state.gui_team :=
  ⟨rfl, by decide, by decide, by decide,
    C11_side_drop_out_of_range (sample_env 0) sample_state (msd_text "abc") 1 [] false rfl
      (fun change h => by cases h) (by decide) (by decide)⟩

/-- A dispatch neither receives nor calls the outgoing replay buffer. -/
theorem process_network_data_no_flush {W : Type} (env : environment W) (ti : turn_info W)
    (cfg : config) (from_ : connection) (backlog : List config) (skip : Bool) (e : effect)
    (he : e ∈ (process_network_data env ti cfg from_ backlog skip).effects) :
    e.is_flush = false ∧ e.received = none := by
  have hw : ∀ e ∈ whisper_effects env cfg, e.is_flush = false ∧ e.received = none := by
    intro e he
    rcases mem_whisper_effects env cfg e he with h | ⟨_, _, h⟩ <;> subst h <;> exact ⟨rfl, rfl⟩
  cases hl : (cfg.child "leave_game").isSome with
  | true =>
    rw [process_network_data_leave env ti cfg from_ backlog skip hl] at he
    exact hw e he
  | false =>
    have hleave : cfg.child "leave_game" = none := by
      cases h : cfg.child "leave_game" with
      | none => rfl
      | some c => rw [h] at hl; cases hl
    obtain ⟨tail, heff, htail⟩ := process_network_data_effects env ti cfg from_ backlog skip hleave
    rw [heff] at he
    simp only [List.mem_append] at he
    rcases he with ((h | h) | h) | h
    · exact hw e h
    · unfold forward_effects at h
      split at h
      · simp only [List.mem_singleton] at h
        subst h
        exact ⟨rfl, rfl⟩
      · simp at h
    · rcases mem_replay_turns_effects env skip _ _ _ _ _ h with
        ⟨_, _, h⟩ | h | ⟨_, h⟩ | ⟨_, h⟩ <;> subst h <;> exact ⟨rfl, rfl⟩
    · rcases htail _ h with ⟨_, h⟩ | ⟨_, _, h⟩ | ⟨_, _, h⟩ <;> subst h <;> exact ⟨rfl, rfl⟩

/-- The receive loop on a queue of messages with real origins, when no
dispatch fails, is the dispatch of the queue in order. -/
theorem receive_loop_eq_dispatch {W : Type} (env : environment W)
    (queue : List (config × connection)) (ti : turn_info W)
    (horigin : ∀ p ∈ queue, p.2 ≠ null_connection)
    (hok : dispatch_succeeds env ti queue) :
    receive_loop env queue ti
      = (dispatch_state env ti queue, dispatch_effects env ti queue, Except.ok ()) := by
  induction queue generalizing ti with
  | nil => rfl
  | cons p rest ih =>
    obtain ⟨cfg, res⟩ := p
    have hres : res ≠ null_connection := horigin (cfg, res) (List.mem_cons_self _ _)
    obtain ⟨⟨r, hr⟩, hrest⟩ := hok
    have ih1 := ih (process_network_data env { ti with inbound := rest } cfg res [] false).state
      (fun p hp => horigin p (List.mem_cons_of_mem _ hp)) hrest
    unfold receive_loop
    simp only [hres, if_false, hr, ih1]
    rfl

/-- The effects of a dispatched queue hold no call on the outgoing replay
buffer, and their receipts are the queue. -/
theorem dispatch_effects_shape {W : Type} (env : environment W)
    (queue : List (config × connection)) (ti : turn_info W) :
    (∀ e ∈ dispatch_effects env ti queue, e.is_flush = false)
    ∧ (dispatch_effects env ti queue).filterMap effect.received = queue := by
  induction queue generalizing ti with
  | nil => exact ⟨by simp [dispatch_effects], rfl⟩
  | cons p rest ih =>
    obtain ⟨cfg, res⟩ := p
    have ih1 := ih (process_network_data env { ti with inbound := rest } cfg res [] false).state
    have hp := process_network_data_no_flush env { ti with inbound := rest } cfg res [] false
    unfold dispatch_effects
    constructor
    · intro e he
      simp only [List.mem_cons, List.mem_append] at he
      rcases he with h | h | h
      · subst h; rfl
      · exact (hp e h).1
      · exact ih1.1 e h
    · have hnone : ((process_network_data env { ti with inbound := rest } cfg res []
          false).effects).filterMap effect.received = [] := by
        rw [List.filterMap_eq_nil_iff]
        exact fun e he => (hp e he).2
      simp only [List.filterMap_cons, effect.received, List.filterMap_append, hnone,
        List.nil_append, ih1.2]

/-- C12: with zero connections `sync_network` does nothing: no receipt, no
dispatch, no call on the outgoing replay buffer, and the state, with the
teams, the undo stack and the pending messages, is as it was. -/
theorem C12_sync_network_offline {W : Type} (env : environment W) (ti : turn_info W)
    (hzero : ti.nconnections = 0) :
    sync_network env ti = (ti, [], Except.ok ()) := by
  unfold sync_network
  simp [hzero]

/-- C12 at a state without connections that has a pending message and a
non-empty undo stack. -/
theorem C12_witness :
    sample_state_offline.nconnections = 0
    ∧ sample_state_offline.inbound ≠ []
    ∧ sync_network (sample_env 0) sample_state_offline
        = (sample_state_offline, [], Except.ok ()) :=
  ⟨rfl, fun h => List.noConfusion h,
    C12_sync_network_offline (sample_env 0) sample_state_offline rfl⟩

/-- C13: with a connection and a queue of messages with real origins on which
no dispatch fails, the effects of `sync_network` are the receipt and dispatch
of each message in delivery order (with the origin reported, a fresh backlog
and `skip_replay = false`), followed by the one call `send_data` makes on the
outgoing replay buffer; no such call occurs among the dispatch effects, the
receipts are the queue in order, and the tick returns. -/
theorem C13_sync_network_drains_then_sends {W : Type} (env : environment W) (ti : turn_info W)
    (hconn : ti.nconnections > 0)
    (horigin : ∀ p ∈ ti.inbound, p.2 ≠ null_connection)
    (hok : dispatch_succeeds env ti ti.inbound) :
    (sync_network env ti).2.1
        = dispatch_effects env ti ti.inbound
          ++ [if (dispatch_state env ti ti.inbound).undo_stack_ = [] then effect.commit_and_sync
              else effect.sync_non_undoable]
    ∧ (∀ e ∈ dispatch_effects env ti ti.inbound, e.is_flush = false)
    ∧ ((sync_network env ti).2.1).filterMap effect.received = ti.inbound
    ∧ (sync_network env ti).2.2 = Except.ok ()
    ∧ (sync_network env ti).1 = dispatch_state env ti ti.inbound := by
  have hloop := receive_loop_eq_dispatch env ti.inbound ti horigin hok
  have hshape := dispatch_effects_shape env ti.inbound ti
  have hsync : sync_network env ti
      = ((send_data (dispatch_state env ti ti.inbound)).1,
          dispatch_effects env ti ti.inbound ++ (send_data (dispatch_state env ti ti.inbound)).2,
          Except.ok ()) := by
    unfold sync_network
    simp only [hconn, if_true, hloop]
  have hsend : send_data (dispatch_state env ti ti.inbound)
      = (dispatch_state env ti ti.inbound,
          [if (dispatch_state env ti ti.inbound).undo_stack_ = [] then effect.commit_and_sync
            else effect.sync_non_undoable]) := by
    unfold send_data
    cases h : (dispatch_state env ti ti.inbound).undo_stack_ with
    | nil => simp
    | cons a l => simp
  rw [hsync, hsend]
  refine ⟨rfl, hshape.1, ?_, rfl, rfl⟩
  simp only [List.filterMap_append, hshape.2]
  split <;> simp [effect.received]

/-- C13 at a queue of two messages: each is received and dispatched in order,
and the one call on the outgoing replay buffer comes last. -/
theorem C13_witness :
    sample_state_online.nconnections > 0
    ∧ sample_state_online.inbound = [(mfail, 1), (mcc "2" "ai", 2)]
    ∧ (sync_network (sample_env 0) sample_state_online).2.1
        = [effect.receive_data mfail 1,
            effect.send_data_all_except mfail 1,
            effect.do_replay (batch "fail" "yes") false (Except.error "desync"),
            effect.send_data out_of_sync_message,
            effect.replay_error "desync",
            effect.add_config_mark_as_sent (batch "fail" "yes"),
            effect.do_replay (batch "end" "yes") false (Except.ok true),
            effect.add_config_mark_as_sent (batch "end" "yes"),
            effect.receive_data (mcc "2" "ai") 2,
            effect.commit_and_sync]
    ∧ (sync_network (sample_env 0) sample_state_online).2.2 = Except.ok () :=
  ⟨by decide, rfl,
    (C13_sync_network_drains_then_sends (sample_env 0) sample_state_online (by decide)
      (fun p hp => by
        simp only [sample_state_online, sample_state, List.mem_cons, List.mem_singleton,
          List.mem_nil_iff, or_false] at hp
        rcases hp with h | h <;> subst h <;> decide)
      ⟨⟨_, rfl⟩, ⟨_, rfl⟩, trivial⟩).1,
    (C13_sync_network_drains_then_sends (sample_env 0) sample_state_online (by decide)
      (fun p hp => by
        simp only [sample_state_online, sample_state, List.mem_cons, List.mem_singleton,
          List.mem_nil_iff, or_false] at hp
        rcases hp with h | h <;> subst h <;> decide)
      ⟨⟨_, rfl⟩, ⟨_, rfl⟩, trivial⟩).2.2.2.1⟩

/-- C14: for a message without `leave_game` and without an in-range
`change_controller` whose non-empty `side_drop` reads as a side `s` with
`1 ≤ s ≤` number of teams, when the leader of that side lives and the dialog
returns 2 or a negative value, the call fails with a `network::error`, the
teams are as they were, and no broadcast carries a `change_controller`. -/
theorem C14_side_drop_abort {W : Type} (env : environment W) (ti : turn_info W)
    (cfg : config) (from_ : connection) (backlog : List config) (skip : Bool) (s : Nat)
    (description : String)
    (hleave : cfg.child "leave_game" = none)
    (hnochange : ∀ change, cfg.child "change_controller" = some change →
      ti.teams_.length ≤ change_controller_index change)
    (hdrop : cfg.attr "side_drop" ≠ "")
    (hside : atoi (cfg.attr "side_drop") = (s : Int))
    (hlo : 1 ≤ s) (hhi : s ≤ ti.teams_.length)
    (hleader : env.find_leader (state_after_turns env ti cfg backlog skip).world s
      = some description)
    (hdialog : env.show_dialog2 (state_after_turns env ti cfg backlog skip).world
        (side_drop_prompt env description)
        (side_drop_options env (state_after_turns env ti cfg backlog skip).gui_observers) = 2
      ∨ env.show_dialog2 (state_after_turns env ti cfg backlog skip).world
        (side_drop_prompt env description)
        (side_drop_options env (state_after_turns env ti cfg backlog skip).gui_observers) < 0) :
    (process_network_data env ti cfg from_ backlog skip).result = Except.error ⟨""⟩
    ∧ (process_network_data env ti cfg from_ backlog skip).state.teams_ = ti.teams_
    ∧ (∀ c, effect.send_data c ∈ (process_network_data env ti cfg from_ backlog skip).effects →
        c.child "change_controller" = none) := by
  have hr := atoi_range (cfg.attr "side_drop")
  rw [hside] at hr
  have hidx : side_drop_index cfg = s - 1 := by
    unfold side_drop_index
    rw [hside]
    exact index_of_side_in_range s hlo hr.2
  have hstep : change_controller_step (state_after_turns env ti cfg backlog skip) cfg = none :=
    change_controller_step_out_of_range _ _ hnochange
  have hs1 : s - 1 + 1 = s := by omega
  have hsd := side_drop_step_leader env (state_after_turns env ti cfg backlog skip) cfg
    description (by rw [hidx]; show s - 1 < ti.teams_.length; omega)
    (by rw [hidx, hs1]; exact hleader)
  rw [side_drop_switch_abort _ _ _ _ _ hdialog] at hsd
  rw [process_network_data_side_drop env ti cfg from_ backlog skip hleave hstep hdrop, hsd]
  refine ⟨rfl, rfl, ?_⟩
  intro c h
  rcases List.mem_append.mp h with h | h
  · exact no_change_broadcast_before_side_drop env ti cfg from_ backlog skip c h
  · simp at h

/-- C14 at `side_drop=3` with the leader alive and the dialog answer 2. -/
theorem C14_witness :
    msd.child "leave_game" = none
    ∧ msd.attr "side_drop" ≠ ""
    ∧ atoi (msd.attr "side_drop") = 3
    ∧ (sample_env 2).find_leader
        (state_after_turns (sample_env 2) sample_state msd [] false).world 3 = some "Leader"
    ∧ (process_network_data (sample_env 2) sample_state msd 1 [] false).result
        = Except.error ⟨""⟩
    ∧ (process_network_data (sample_env 2) sample_state msd 1 [] false).state.teams_
        = sample_state.teams_
    ∧ (∀ c, effect.send_data c
          ∈ (process_network_data (sample_env 2) sample_state msd 1 [] false).effects →
        c.child "change_controller" = none) :=
  ⟨rfl, by decide, by decide, by decide,
    C14_side_drop_abort (sample_env 2) sample_state msd 1 [] false 3 "Leader" rfl
      (fun change h => by cases h) (by decide) (by decide) (by decide) (by decide) (by decide)
      (Or.inl rfl)⟩

/-- C15: for a message without `leave_game` and without an in-range
`change_controller` whose non-empty `side_drop` reads as a side `s` with
`1 ≤ s ≤` number of teams, when the leader of that side lives and the dialog
returns `3 + i` with `i` not below the number of observers collected, the
call returns `PROCESS_RESTART_TURN`, sets team index `s - 1` to AI and no
other team, and no broadcast carries a `change_controller`. -/
theorem C15_side_drop_stale_choice {W : Type} (env : environment W) (ti : turn_info W)
    (cfg : config) (from_ : connection) (backlog : List config) (skip : Bool) (s i : Nat)
    (description : String)
    (hleave : cfg.child "leave_game" = none)
    (hnochange : ∀ change, cfg.child "change_controller" = some change →
      ti.teams_.length ≤ change_controller_index change)
    (hdrop : cfg.attr "side_drop" ≠ "")
    (hside : atoi (cfg.attr "side_drop") = (s : Int))
    (hlo : 1 ≤ s) (hhi : s ≤ ti.teams_.length)
    (hleader : env.find_leader (state_after_turns env ti cfg backlog skip).world s
      = some description)
    (hdialog : env.show_dialog2 (state_after_turns env ti cfg backlog skip).world
      (side_drop_prompt env description)
      (side_drop_options env (state_after_turns env ti cfg backlog skip).gui_observers)
        = 3 + (i : Int))
    (hstale : (state_after_turns env ti cfg backlog skip).gui_observers.length ≤ i) :
    (process_network_data env ti cfg from_ backlog skip).result
        = Except.ok PROCESS_DATA_RESULT.PROCESS_RESTART_TURN
    ∧ (process_network_data env ti cfg from_ backlog skip).state.teams_
        = ti.teams_.set (s - 1) ⟨CONTROLLER.AI⟩
    ∧ (∀ c, effect.send_data c ∈ (process_network_data env ti cfg from_ backlog skip).effects →
        c.child "change_controller" = none) := by
  have hr := atoi_range (cfg.attr "side_drop")
  rw [hside] at hr
  have hidx : side_drop_index cfg = s - 1 := by
    unfold side_drop_index
    rw [hside]
    exact index_of_side_in_range s hlo hr.2
  have hstep : change_controller_step (state_after_turns env ti cfg backlog skip) cfg = none :=
    change_controller_step_out_of_range _ _ hnochange
  have hs1 : s - 1 + 1 = s := by omega
  have hsd := side_drop_step_leader env (state_after_turns env ti cfg backlog skip) cfg
    description (by rw [hidx]; show s - 1 < ti.teams_.length; omega)
    (by rw [hidx, hs1]; exact hleader)
  rw [hdialog, side_drop_switch_stale _ _ _ _ _ hstale, hidx] at hsd
  rw [process_network_data_side_drop env ti cfg from_ backlog skip hleave hstep hdrop, hsd]
  refine ⟨rfl, rfl, ?_⟩
  intro c h
  rcases List.mem_append.mp h with h | h
  · exact no_change_broadcast_before_side_drop env ti cfg from_ backlog skip c h
  · simp at h

/-- C15 at `side_drop=3`, roster Alice and Bob, dialog answer 5: there is no
third observer, and team index 2 becomes AI. -/
theorem C15_witness :
    msd.child "leave_game" = none
    ∧ msd.attr "side_drop" ≠ ""
    ∧ atoi (msd.attr "side_drop") = 3
    ∧ (state_after_turns (sample_env 5) sample_state msd [] false).gui_observers.length ≤ 2
    ∧ (process_network_data (sample_env 5) sample_state msd 1 [] false).result
        = Except.ok PROCESS_DATA_RESULT.PROCESS_RESTART_TURN
    ∧ (process_network_data (sample_env 5) sample_state msd 1 [] false).state.teams_
        = [⟨CONTROLLER.HUMAN⟩, ⟨CONTROLLER.NETWORK⟩, ⟨CONTROLLER.AI⟩]
    ∧ (∀ c, effect.send_data c
          ∈ (process_network_data (sample_env 5) sample_state msd 1 [] false).effects →
        c.child "change_controller" = none) :=
  ⟨rfl, by decide, by decide, by decide,
    C15_side_drop_stale_choice (sample_env 5) sample_state msd 1 [] false 3 2 "Leader" rfl
      (fun change h => by cases h) (by decide) (by decide) (by decide) (by decide) (by decide)
      rfl (by decide)⟩

/-- C16 (amended): for a message without `leave_game` whose `change_controller`
child has a side `s` with `1 ≤ s ≤` number of teams and a controller text
that is none of human, network and ai, the call changes no team and not the
displayed team, and returns `PROCESS_RESTART_TURN`. -/
theorem C16_unknown_controller {W : Type} (env : environment W) (ti : turn_info W)
    (cfg : config) (from_ : connection) (backlog : List config) (skip : Bool)
    (change : config) (s : Nat)
    (hleave : cfg.child "leave_game" = none)
    (hchange : cfg.child "change_controller" = some change)
    (hside : lexical_cast_default (change.attr "side") 1 = (s : Int))
    (hlo : 1 ≤ s) (hhi : s ≤ ti.teams_.length)
    (hhuman : change.attr "controller" ≠ "human")
    (hnetwork : change.attr "controller" ≠ "network")
    (hai : change.attr "controller" ≠ "ai") :
    (process_network_data env ti cfg from_ backlog skip).state.teams_ = ti.teams_
    ∧ (process_network_data env ti cfg from_ backlog skip).state.gui_team = ti.gui_team
    ∧ (process_network_data env ti cfg from_ backlog skip).result
        = Except.ok PROCESS_DATA_RESULT.PROCESS_RESTART_TURN := by
  have hr := lexical_cast_default_range (change.attr "side") 1 (by norm_num) (by norm_num)
  rw [hside] at hr
  have hidx : change_controller_index change = s - 1 := by
    unfold change_controller_index
    rw [hside]
    exact index_of_side_in_range s hlo hr.2
  have hlt : s - 1 < ti.teams_.length := by omega
  have hstep : change_controller_step (state_after_turns env ti cfg backlog skip) cfg
      = some (state_after_turns env ti cfg backlog skip) := by
    unfold change_controller_step
    simp only [hchange, hidx, state_after_turns, hlt, if_true, hhuman, hnetwork, hai, if_false]
  obtain ⟨h1, h2⟩ := process_network_data_change env ti cfg from_ backlog skip _ hleave hstep
  rw [h1, h2]
  exact ⟨rfl, rfl, rfl⟩

/-- C16 at `change_controller` with `side=2` and `controller=robot`. -/
theorem C16_witness :
    (mcc "2" "robot").child "leave_game" = none
    ∧ (mcc "2" "robot").child "change_controller"
        = some (config.mk [("side", "2"), ("controller", "robot")] [])
    ∧ lexical_cast_default ((config.mk [("side", "2"), ("controller", "robot")] []).attr "side") 1
        = ((2 : Nat) : Int)
    ∧ (process_network_data (sample_env 0) sample_state (mcc "2" "robot") 1 [] false).state.teams_
        = sample_state.teams_
    ∧ (process_network_data (sample_env 0) sample_state (mcc "2" "robot") 1 [] false).state.gui_team
        = sample_state.gui_team
    ∧ (process_network_data (sample_env 0) sample_state (mcc "2" "robot") 1 [] false).result
        = Except.ok PROCESS_DATA_RESULT.PROCESS_RESTART_TURN :=
  ⟨rfl, rfl, by decide,
    C16_unknown_controller (sample_env 0) sample_state (mcc "2" "robot") 1 [] false
      (config.mk [("side", "2"), ("controller", "robot")] []) 2 rfl rfl (by decide) (by decide)
      (by decide) (by decide) (by decide) (by decide)⟩

/-- C16 as stated fails: a message whose `change_controller` child has the
in-range side 2 and the controller text `robot`, and which also has a
`leave_game` child, does not return `PROCESS_RESTART_TURN`; the call throws. -/
theorem C16_counterexample :
    mleave_cc.child "change_controller"
        = some (config.mk [("side", "2"), ("controller", "robot")] [])
    ∧ lexical_cast_default ((config.mk [("side", "2"), ("controller", "robot")] []).attr "side") 1
        = 2
    ∧ 2 ≤ sample_state.teams_.length
    ∧ (config.mk [("side", "2"), ("controller", "robot")] []).attr "controller" = "robot"
    ∧ (process_network_data (sample_env 0) sample_state mleave_cc 1 [] false).result
        = Except.error ⟨""⟩ :=
  ⟨rfl, by decide, by decide, by decide, rfl⟩

/-- The loop splits the batches into a first part, replayed and marked in
order, and a rest, deferred to the backlog in order; from `turn_end` set the
first part is empty. -/
theorem replay_turns_partition {W : Type} (env : environment W) (skip : Bool)
    (ts : List config) (turn_end : Bool) (w : W) (backlog : List config) :
    ∃ handled deferred, ts = handled ++ deferred
      ∧ (replay_turns env skip ts turn_end w backlog).effects.filterMap effect.marked_batch
          = handled
      ∧ (replay_turns env skip ts turn_end w backlog).effects.filterMap effect.replayed_batch
          = handled
      ∧ (replay_turns env skip ts turn_end w backlog).backlog
          = backlog ++ deferred.map backlog_entry := by
  induction ts generalizing turn_end w backlog with
  | nil => exact ⟨[], [], rfl, rfl, rfl, by simp [replay_turns]⟩
  | cons t ts ih =>
    unfold replay_turns
    split
    · split
      · rename_i w1 ended heq
        obtain ⟨h, d, h1, h2, h3, h4⟩ := ih ended w1 backlog
        refine ⟨t :: h, d, by rw [h1]; rfl, ?_, ?_, h4⟩
        · simp [effect.marked_batch, h2]
        · simp [effect.replayed_batch, h3]
      · rename_i w1 m heq
        obtain ⟨h, d, h1, h2, h3, h4⟩ := ih false w1 backlog
        refine ⟨t :: h, d, by rw [h1]; rfl, ?_, ?_, h4⟩
        · simp [effect.marked_batch, h2]
        · simp [effect.replayed_batch, h3]
    · rename_i hte
      have hte1 : turn_end = true := by simpa using hte
      subst hte1
      rw [replay_turns_after_end]
      exact ⟨[], t :: ts, rfl, rfl, rfl, by simp⟩

/-- The whisper block, the forwarding block and the side-drop block replay
and mark nothing. -/
theorem filterMap_batches_outside_loop {W : Type} (env : environment W) (cfg : config)
    (turns : List config) (from_ : connection) (loop tail : List effect)
    (htail : ∀ e ∈ tail, (∃ n, e = effect.log_unknown_side n)
      ∨ (∃ m o, e = effect.show_dialog2 m o)
      ∨ (∃ side name, e = effect.send_data (change_side_controller_message side name false))) :
    (whisper_effects env cfg ++ forward_effects cfg turns from_ ++ loop ++ tail).filterMap
        effect.marked_batch = loop.filterMap effect.marked_batch
    ∧ (whisper_effects env cfg ++ forward_effects cfg turns from_ ++ loop ++ tail).filterMap
        effect.replayed_batch = loop.filterMap effect.replayed_batch := by
  have hhead : ∀ e ∈ whisper_effects env cfg ++ forward_effects cfg turns from_,
      e.marked_batch = none ∧ e.replayed_batch = none := by
    intro e he
    rcases List.mem_append.mp he with he | he
    · rcases mem_whisper_effects env cfg e he with h | ⟨_, _, h⟩ <;> subst h <;> exact ⟨rfl, rfl⟩
    · unfold forward_effects at he
      split at he
      · simp only [List.mem_singleton] at he
        subst he
        exact ⟨rfl, rfl⟩
      · simp at he
  have htl : ∀ e ∈ tail, e.marked_batch = none ∧ e.replayed_batch = none := by
    intro e he
    rcases htail e he with ⟨_, h⟩ | ⟨_, _, h⟩ | ⟨_, _, h⟩ <;> subst h <;> exact ⟨rfl, rfl⟩
  have a1 := List.filterMap_eq_nil_iff.mpr (fun e he => (hhead e he).1)
  have a2 := List.filterMap_eq_nil_iff.mpr (fun e he => (hhead e he).2)
  have b1 := List.filterMap_eq_nil_iff.mpr (fun e he => (htl e he).1)
  have b2 := List.filterMap_eq_nil_iff.mpr (fun e he => (htl e he).2)
  constructor
  · rw [List.filterMap_append, List.filterMap_append, a1, b1]
    simp
  · rw [List.filterMap_append, List.filterMap_append, a2, b2]
    simp

/-- C17: for a message without `leave_game`, whatever the replays give, the
`turn` children split into a first part and a rest: the batches marked
`MARK_AS_SENT` are exactly those of the first part, once each and in order,
and so are the batches replayed; the backlog gains exactly one entry per batch
of the rest, in order, each holding that batch as its single `turn` child. -/
theorem C17_turns_marked_or_deferred {W : Type} (env : environment W) (ti : turn_info W)
    (cfg : config) (from_ : connection) (backlog : List config) (skip : Bool)
    (hleave : cfg.child "leave_game" = none) :
    ∃ handled deferred, cfg.get_children "turn" = handled ++ deferred
      ∧ (process_network_data env ti cfg from_ backlog skip).effects.filterMap
          effect.marked_batch = handled
      ∧ (process_network_data env ti cfg from_ backlog skip).effects.filterMap
          effect.replayed_batch = handled
      ∧ (process_network_data env ti cfg from_ backlog skip).backlog
          = backlog ++ deferred.map (fun t => config.mk [] [("turn", t)]) := by
  obtain ⟨tail, heff, htail⟩ := process_network_data_effects env ti cfg from_ backlog skip hleave
  obtain ⟨h, d, h1, h2, h3, h4⟩ :=
    replay_turns_partition env skip (cfg.get_children "turn") false ti.world backlog
  have hout := filterMap_batches_outside_loop env cfg (cfg.get_children "turn") from_
    (replay_turns env skip (cfg.get_children "turn") false ti.world backlog).effects tail htail
  refine ⟨h, d, h1, ?_, ?_, ?_⟩
  · rw [heff, hout.1, h2]
  · rw [heff, hout.2, h3]
  · rw [process_network_data_backlog env ti cfg from_ backlog skip hleave, h4]
    rfl

/-- C17 at three `turn` children of which the first ends the turn: it alone
is marked and replayed, the other two are deferred. -/
theorem C17_witness :
    m3.child "leave_game" = none
    ∧ ∃ handled deferred, m3.get_children "turn" = handled ++ deferred
      ∧ (process_network_data (sample_env 0) sample_state m3 1 [] false).effects.filterMap
          effect.marked_batch = handled
      ∧ (process_network_data (sample_env 0) sample_state m3 1 [] false).effects.filterMap
          effect.replayed_batch = handled
      ∧ (process_network_data (sample_env 0) sample_state m3 1 [] false).backlog
          = [] ++ deferred.map (fun t => config.mk [] [("turn", t)]) :=
  ⟨rfl, C17_turns_marked_or_deferred (sample_env 0) sample_state m3 1 [] false rfl⟩

/-- The loop from `turn_end` unset on a batch whose replay fails: the batch
is replayed and marked, nothing is deferred for it, and the loop goes on with
`turn_end` unset. -/
theorem replay_turns_failed_head {W : Type} (env : environment W) (skip : Bool)
    (t : config) (rest : List config) (w : W) (backlog : List config) (msg : String)
    (hfail : (env.do_replay w t skip).2 = Except.error msg) :
    replay_turns env skip (t :: rest) false w backlog
      = ⟨(replay_turns env skip rest false (env.do_replay w t skip).1 backlog).world,
          (replay_turns env skip rest false (env.do_replay w t skip).1 backlog).turn_end,
          (replay_turns env skip rest false (env.do_replay w t skip).1 backlog).backlog,
          effect.do_replay t skip (Except.error msg)
            :: effect.send_data out_of_sync_message :: effect.replay_error msg
            :: effect.add_config_mark_as_sent t
            :: (replay_turns env skip rest false (env.do_replay w t skip).1 backlog).effects⟩ := by
  conv => lhs; unfold replay_turns
  simp only [if_true]
  split
  · rename_i w1 ended heq
    rw [heq] at hfail
    cases hfail
  · rename_i w1 m heq
    rw [heq] at hfail
    simp only [Except.error.injEq] at hfail
    subst hfail
    rw [heq]

/-- The loop from `turn_end` unset on a batch whose replay returns: the
batch is replayed and marked, and the loop goes on with the value returned. -/
theorem replay_turns_ok_head {W : Type} (env : environment W) (skip : Bool)
    (t : config) (rest : List config) (w : W) (backlog : List config) (ended : Bool)
    (hok : (env.do_replay w t skip).2 = Except.ok ended) :
    replay_turns env skip (t :: rest) false w backlog
      = ⟨(replay_turns env skip rest ended (env.do_replay w t skip).1 backlog).world,
          (replay_turns env skip rest ended (env.do_replay w t skip).1 backlog).turn_end,
          (replay_turns env skip rest ended (env.do_replay w t skip).1 backlog).backlog,
          effect.do_replay t skip (Except.ok ended)
            :: effect.add_config_mark_as_sent t
            :: (replay_turns env skip rest ended (env.do_replay w t skip).1 backlog).effects⟩ := by
  conv => lhs; unfold replay_turns
  simp only [if_true]
  split
  · rename_i w1 e heq
    rw [heq] at hok
    simp only [Except.ok.injEq] at hok
    subst hok
    rw [heq]
  · rename_i w1 m heq
    rw [heq] at hok
    cases hok

/-- The loop over batches of which a first part `pre` does not end the turn
(each replay there returns false or fails): `pre` is replayed and marked in
order, and the loop goes on with `turn_end` unset in the world `pre` left. -/
theorem replay_turns_no_end_prefix {W : Type} (env : environment W) (skip : Bool)
    (pre rest : List config) (w : W) (backlog : List config)
    (hpre : ∀ p1 t p2, pre = p1 ++ t :: p2 →
      (env.do_replay (replay_world env skip w p1) t skip).2 ≠ Except.ok true) :
    ∃ head, (replay_turns env skip (pre ++ rest) false w backlog).effects
        = head ++ (replay_turns env skip rest false (replay_world env skip w pre)
            backlog).effects
      ∧ head.filterMap effect.replayed_batch = pre
      ∧ head.filterMap effect.marked_batch = pre
      ∧ (replay_turns env skip (pre ++ rest) false w backlog).backlog
          = (replay_turns env skip rest false (replay_world env skip w pre) backlog).backlog
      ∧ (replay_turns env skip (pre ++ rest) false w backlog).turn_end
          = (replay_turns env skip rest false (replay_world env skip w pre) backlog).turn_end := by
  induction pre generalizing w with
  | nil => exact ⟨[], rfl, rfl, rfl, rfl, rfl⟩
  | cons t0 pre ih =>
    have h0 := hpre [] t0 pre rfl
    simp only [replay_world] at h0
    have hpre1 : ∀ p1 t p2, pre = p1 ++ t :: p2 →
        (env.do_replay (replay_world env skip (env.do_replay w t0 skip).1 p1) t skip).2
          ≠ Except.ok true := by
      intro p1 t p2 hp
      have := hpre (t0 :: p1) t p2 (by rw [hp]; rfl)
      simpa [replay_world] using this
    obtain ⟨head, e1, e2, e3, e4, e5⟩ := ih (env.do_replay w t0 skip).1 hpre1
    simp only [List.cons_append, replay_world]
    cases hres : (env.do_replay w t0 skip).2 with
    | ok ended =>
      have hended : ended = false := by
        cases ended with
        | false => rfl
        | true => exact absurd hres h0
      subst hended
      rw [replay_turns_ok_head env skip t0 (pre ++ rest) w backlog false hres]
      refine ⟨effect.do_replay t0 skip (Except.ok false)
        :: effect.add_config_mark_as_sent t0 :: head, ?_, ?_, ?_, e4, e5⟩
      · simp only [e1, List.cons_append]
      · simp [effect.replayed_batch, e2]
      · simp [effect.marked_batch, e3]
    | error m =>
      rw [replay_turns_failed_head env skip t0 (pre ++ rest) w backlog m hres]
      refine ⟨effect.do_replay t0 skip (Except.error m)
        :: effect.send_data out_of_sync_message :: effect.replay_error m
        :: effect.add_config_mark_as_sent t0 :: head, ?_, ?_, ?_, e4, e5⟩
      · simp only [e1, List.cons_append]
      · simp [effect.replayed_batch, e2]
      · simp [effect.marked_batch, e3]

/-- The loop from `turn_end` unset replays and marks its first batch, and
defers at most batches after it. -/
theorem replay_turns_head_handled {W : Type} (env : environment W) (skip : Bool)
    (t : config) (post : List config) (w : W) (backlog : List config) :
    ∃ handled deferred, post = handled ++ deferred
      ∧ (replay_turns env skip (t :: post) false w backlog).effects.filterMap
          effect.replayed_batch = t :: handled
      ∧ (replay_turns env skip (t :: post) false w backlog).effects.filterMap
          effect.marked_batch = t :: handled
      ∧ (replay_turns env skip (t :: post) false w backlog).backlog
          = backlog ++ deferred.map backlog_entry := by
  cases hres : (env.do_replay w t skip).2 with
  | ok ended =>
    rw [replay_turns_ok_head env skip t post w backlog ended hres]
    obtain ⟨h, d, h1, h2, h3, h4⟩ :=
      replay_turns_partition env skip post ended (env.do_replay w t skip).1 backlog
    exact ⟨h, d, h1, by simp [effect.replayed_batch, h3], by simp [effect.marked_batch, h2], h4⟩
  | error m =>
    rw [replay_turns_failed_head env skip t post w backlog m hres]
    obtain ⟨h, d, h1, h2, h3, h4⟩ :=
      replay_turns_partition env skip post false (env.do_replay w t skip).1 backlog
    exact ⟨h, d, h1, by simp [effect.replayed_batch, h3], by simp [effect.marked_batch, h2], h4⟩

/-- C20: a failed replay leaves the end-of-turn flag unset.  For a message
without `leave_game`: (1) when its `turn` children are
`pre ++ tf :: tnext :: post`, no batch of `pre` ends the turn and the replay
of `tf` fails, then `tnext` is replayed and marked right after `tf`, and only
batches of `post` can be deferred to the backlog; (2) when the message has
neither `change_controller` nor `side_drop` and the replay of every batch
fails, the result is `PROCESS_CONTINUE` and the backlog is as it was. -/
theorem C20_failed_replay_keeps_turn_open {W : Type} (env : environment W) (ti : turn_info W)
    (cfg : config) (from_ : connection) (backlog : List config) (skip : Bool)
    (hleave : cfg.child "leave_game" = none) :
    (∀ pre tf tnext post msg, cfg.get_children "turn" = pre ++ tf :: tnext :: post →
      (∀ p1 t p2, pre = p1 ++ t :: p2 →
        (env.do_replay (replay_world env skip ti.world p1) t skip).2 ≠ Except.ok true) →
      (env.do_replay (replay_world env skip ti.world pre) tf skip).2 = Except.error msg →
      ∃ handled deferred, post = handled ++ deferred
        ∧ (process_network_data env ti cfg from_ backlog skip).effects.filterMap
            effect.replayed_batch = pre ++ tf :: tnext :: handled
        ∧ (process_network_data env ti cfg from_ backlog skip).effects.filterMap
            effect.marked_batch = pre ++ tf :: tnext :: handled
        ∧ (process_network_data env ti cfg from_ backlog skip).backlog
            = backlog ++ deferred.map (fun t => config.mk [] [("turn", t)]))
    ∧ (cfg.child "change_controller" = none → cfg.attr "side_drop" = "" →
      (∀ p1 t p2, cfg.get_children "turn" = p1 ++ t :: p2 →
        ∃ msg, (env.do_replay (replay_world env skip ti.world p1) t skip).2
          = Except.error msg) →
      (process_network_data env ti cfg from_ backlog skip).result
          = Except.ok PROCESS_DATA_RESULT.PROCESS_CONTINUE
        ∧ (process_network_data env ti cfg from_ backlog skip).backlog = backlog) := by
  constructor
  · intro pre tf tnext post msg hturns hpre hfail
    obtain ⟨tail, heff, htail⟩ :=
      process_network_data_effects env ti cfg from_ backlog skip hleave
    have hout := filterMap_batches_outside_loop env cfg (cfg.get_children "turn") from_
      (replay_turns env skip (cfg.get_children "turn") false ti.world backlog).effects tail htail
    obtain ⟨head, e1, e2, e3, e4, _⟩ :=
      replay_turns_no_end_prefix env skip pre (tf :: tnext :: post) ti.world backlog hpre
    rw [replay_turns_failed_head env skip tf (tnext :: post) _ backlog msg hfail] at e1 e4
    obtain ⟨h, d, h1, h2, h3, h4⟩ := replay_turns_head_handled env skip tnext post
      (env.do_replay (replay_world env skip ti.world pre) tf skip).1 backlog
    simp only at e1 e4
    refine ⟨h, d, h1, ?_, ?_, ?_⟩
    · rw [heff, hout.2, hturns, e1, List.filterMap_append, e2]
      simp [effect.replayed_batch, h2]
    · rw [heff, hout.1, hturns, e1, List.filterMap_append, e3]
      simp [effect.marked_batch, h3]
    · rw [process_network_data_backlog env ti cfg from_ backlog skip hleave, hturns, e4, h4]
      rfl
  · intro hchange hdrop hall
    have hpre : ∀ p1 t p2, cfg.get_children "turn" = p1 ++ t :: p2 →
        (env.do_replay (replay_world env skip ti.world p1) t skip).2 ≠ Except.ok true := by
      intro p1 t p2 hp habs
      obtain ⟨m, hm⟩ := hall p1 t p2 hp
      rw [hm] at habs
      cases habs
    obtain ⟨head, _, _, _, e4, e5⟩ :=
      replay_turns_no_end_prefix env skip (cfg.get_children "turn") [] ti.world backlog hpre
    simp only [List.append_nil, replay_turns] at e4 e5
    rw [process_network_data_fallthrough env ti cfg from_ backlog skip hleave
      (change_controller_step_no_child _ _ hchange) hdrop]
    simp only [e4, e5, Bool.false_eq_true, if_false, and_self]

/-- C20 at two `turn` children whose replays both fail: both are replayed and
marked, nothing is deferred, and the result is `PROCESS_CONTINUE`. -/
theorem C20_witness :
    mfail2.child "leave_game" = none
    ∧ (process_network_data (sample_env 0) sample_state mfail2 1 [] false).effects.filterMap
        effect.replayed_batch = [batch "fail" "yes", batch "fail" "yes"]
    ∧ (process_network_data (sample_env 0) sample_state mfail2 1 [] false).effects.filterMap
        effect.marked_batch = [batch "fail" "yes", batch "fail" "yes"]
    ∧ (process_network_data (sample_env 0) sample_state mfail2 1 [] false).result
        = Except.ok PROCESS_DATA_RESULT.PROCESS_CONTINUE
    ∧ (process_network_data (sample_env 0) sample_state mfail2 1 [] false).backlog = [] :=
  ⟨rfl, rfl, rfl,
    (C20_failed_replay_keeps_turn_open (sample_env 0) sample_state mfail2 1 [] false rfl).2
      rfl rfl
      (fun p1 t p2 h => by
        have hturns : mfail2.get_children "turn" = [batch "fail" "yes", batch "fail" "yes"] :=
          rfl
        rw [hturns] at h
        rcases p1 with _ | ⟨a, _ | ⟨b, _ | ⟨c, p⟩⟩⟩
        · cases h; exact ⟨"desync", rfl⟩
        · cases h; exact ⟨"desync", rfl⟩
        · cases h
        · cases h)⟩

/-- An in-range `change_controller` child makes the block return. -/
theorem change_controller_step_in_range {W : Type} (ti : turn_info W) (cfg change : config)
    (hchange : cfg.child "change_controller" = some change)
    (hin : change_controller_index change < ti.teams_.length) :
    ∃ ti3, change_controller_step ti cfg = some ti3 := by
  unfold change_controller_step
  simp only [hchange, hin, if_true]
  split
  · exact ⟨_, rfl⟩
  · split
    · exact ⟨_, rfl⟩
    · split
      · exact ⟨_, rfl⟩
      · exact ⟨_, rfl⟩

/-- An in-range `change_controller` child with a controller text that is none
of human, network and ai leaves the state as it is. -/
theorem change_controller_step_unknown {W : Type} (ti : turn_info W) (cfg change : config)
    (hchange : cfg.child "change_controller" = some change)
    (hin : change_controller_index change < ti.teams_.length)
    (hhuman : change.attr "controller" ≠ "human")
    (hnetwork : change.attr "controller" ≠ "network")
    (hai : change.attr "controller" ≠ "ai") :
    change_controller_step ti cfg = some ti := by
  unfold change_controller_step
  simp only [hchange, hin, if_true, hhuman, hnetwork, hai, if_false]

/-- Without a `leave_game` child, when the `change_controller` block applies,
the effects end with the replay loop. -/
theorem process_network_data_change_effects {W : Type} (env : environment W)
    (ti : turn_info W) (cfg : config) (from_ : connection) (backlog : List config)
    (skip : Bool) (ti3 : turn_info W)
    (hleave : cfg.child "leave_game" = none)
    (hstep : change_controller_step (state_after_turns env ti cfg backlog skip) cfg = some ti3) :
    (process_network_data env ti cfg from_ backlog skip).effects
      = whisper_effects env cfg ++ forward_effects cfg (cfg.get_children "turn") from_
        ++ (replay_turns env skip (cfg.get_children "turn") false ti.world backlog).effects := by
  unfold state_after_turns at hstep
  unfold process_network_data
  simp only [hleave, Option.isSome_none, Bool.false_eq_true, if_false]
  rw [hstep]

/-- The effects before the side-drop block hold no error-log line. -/
theorem no_log_before_side_drop {W : Type} (env : environment W) (ti : turn_info W)
    (cfg : config) (from_ : connection) (backlog : List config) (skip : Bool) (n : Nat) :
    effect.log_unknown_side n ∉
      whisper_effects env cfg ++ forward_effects cfg (cfg.get_children "turn") from_
        ++ (replay_turns env skip (cfg.get_children "turn") false ti.world backlog).effects := by
  intro h
  rcases List.mem_append.mp h with h | h
  · rcases List.mem_append.mp h with h | h
    · rcases mem_whisper_effects env cfg _ h with h | ⟨_, _, h⟩ <;> cases h
    · unfold forward_effects at h
      split at h
      · simp at h
      · simp at h
  · rcases mem_replay_turns_effects env skip _ _ _ _ _ h with
      ⟨_, _, h⟩ | h | ⟨_, h⟩ | ⟨_, h⟩ <;> cases h

/-- C18 (amended): for a message whose `change_controller` child has an
in-range index, the `side_drop` attribute is not processed: the effects hold
no dialog, no unknown-side log line and no broadcast of a `change_controller`;
the call can fail only on a `leave_game` child, in which case the teams are as
they were; and without `leave_game` it returns `PROCESS_RESTART_TURN` in the
very state the `change_controller` block produced. -/
theorem C18_in_range_change_skips_side_drop {W : Type} (env : environment W)
    (ti : turn_info W) (cfg : config) (from_ : connection) (backlog : List config)
    (skip : Bool) (change : config)
    (hchange : cfg.child "change_controller" = some change)
    (hin : change_controller_index change < ti.teams_.length) :
    (∀ m o, effect.show_dialog2 m o
        ∉ (process_network_data env ti cfg from_ backlog skip).effects)
    ∧ (∀ n, effect.log_unknown_side n
        ∉ (process_network_data env ti cfg from_ backlog skip).effects)
    ∧ (∀ c, effect.send_data c ∈ (process_network_data env ti cfg from_ backlog skip).effects →
        c.child "change_controller" = none)
    ∧ (∀ err, (process_network_data env ti cfg from_ backlog skip).result = Except.error err →
        (cfg.child "leave_game").isSome = true
          ∧ (process_network_data env ti cfg from_ backlog skip).state.teams_ = ti.teams_)
    ∧ (cfg.child "leave_game" = none →
        (process_network_data env ti cfg from_ backlog skip).result
            = Except.ok PROCESS_DATA_RESULT.PROCESS_RESTART_TURN
          ∧ change_controller_step (state_after_turns env ti cfg backlog skip) cfg
            = some (process_network_data env ti cfg from_ backlog skip).state) := by
  cases hl : (cfg.child "leave_game").isSome with
  | true =>
    rw [process_network_data_leave env ti cfg from_ backlog skip hl]
    refine ⟨?_, ?_, ?_, fun _ _ => ⟨rfl, rfl⟩, ?_⟩
    · intro m o h
      rcases mem_whisper_effects env cfg _ h with h | ⟨_, _, h⟩ <;> cases h
    · intro n h
      rcases mem_whisper_effects env cfg _ h with h | ⟨_, _, h⟩ <;> cases h
    · intro c h
      rcases mem_whisper_effects env cfg _ h with h | ⟨_, _, h⟩ <;> cases h
    · intro hnone
      rw [hnone] at hl
      cases hl
  | false =>
    have hleave : cfg.child "leave_game" = none := by
      cases h : cfg.child "leave_game" with
      | none => rfl
      | some c => rw [h] at hl; cases hl
    obtain ⟨ti3, hstep⟩ := change_controller_step_in_range
      (state_after_turns env ti cfg backlog skip) cfg change hchange hin
    obtain ⟨h1, h2⟩ := process_network_data_change env ti cfg from_ backlog skip ti3 hleave hstep
    have heff := process_network_data_change_effects env ti cfg from_ backlog skip ti3 hleave
      hstep
    refine ⟨?_, ?_, ?_, ?_, ?_⟩
    · intro m o
      rw [heff]
      exact no_dialog_before_side_drop env ti cfg from_ backlog skip m o
    · intro n
      rw [heff]
      exact no_log_before_side_drop env ti cfg from_ backlog skip n
    · intro c h
      rw [heff] at h
      exact no_change_broadcast_before_side_drop env ti cfg from_ backlog skip c h
    · intro err herr
      rw [h2] at herr
      cases herr
    · intro _
      exact ⟨h2, by rw [h1]; exact hstep⟩

/-- C18 at a message with `change_controller` of side 2, controller ai, and
`side_drop=3`: team index 1 becomes AI, team index 2 is untouched, and no
dialog is shown. -/
theorem C18_witness :
    mcc2_drop.child "change_controller"
        = some (config.mk [("side", "2"), ("controller", "ai")] [])
    ∧ change_controller_index (config.mk [("side", "2"), ("controller", "ai")] []) = 1
    ∧ mcc2_drop.attr "side_drop" = "3"
    ∧ (process_network_data (sample_env 0) sample_state mcc2_drop 1 [] false).effects = []
    ∧ (process_network_data (sample_env 0) sample_state mcc2_drop 1 [] false).state.teams_
        = [⟨CONTROLLER.HUMAN⟩, ⟨CONTROLLER.AI⟩, ⟨CONTROLLER.NETWORK⟩]
    ∧ (process_network_data (sample_env 0) sample_state mcc2_drop 1 [] false).result
        = Except.ok PROCESS_DATA_RESULT.PROCESS_RESTART_TURN :=
  ⟨rfl, by decide, by decide, rfl, rfl,
    ((C18_in_range_change_skips_side_drop (sample_env 0) sample_state mcc2_drop 1 [] false
      (config.mk [("side", "2"), ("controller", "ai")] []) rfl (by decide)).2.2.2.2 rfl).1⟩

/-- C18 as stated fails: a message with a `change_controller` child of the
out-of-range side 9 and `side_drop=3` has its `side_drop` processed: the
side-drop dialog is shown and, on answer 0, team index 2 becomes AI. -/
theorem C18_counterexample :
    (mcc9_drop.child "change_controller").isSome = true
    ∧ mcc9_drop.attr "side_drop" = "3"
    ∧ (process_network_data (sample_env 0) sample_state mcc9_drop 1 [] false).effects
        = [effect.show_dialog2 "Leader has left the game. What do you want to do?"
            ["Replace with AI", "Replace with local player", "Abort game",
              "Replace with Alice", "Replace with Bob"]]
    ∧ (process_network_data (sample_env 0) sample_state mcc9_drop 1 [] false).state.teams_
        = [⟨CONTROLLER.HUMAN⟩, ⟨CONTROLLER.NETWORK⟩, ⟨CONTROLLER.AI⟩]
    ∧ (process_network_data (sample_env 0) sample_state mcc9_drop 1 [] false).result
        = Except.ok PROCESS_DATA_RESULT.PROCESS_RESTART_TURN :=
  ⟨rfl, by decide, rfl, rfl, rfl⟩

/-- The message of `change_side_controller`, spelled out: no attribute, one
child `change_controller` with `player` and `side`, and `own_side=yes` when
the flag is set. -/
theorem change_side_controller_message_eq (side player : String) (own_side : Bool) :
    change_side_controller_message side player own_side
      = config.mk [] [("change_controller",
          config.mk (if own_side then [("own_side", "yes"), ("player", player), ("side", side)]
            else [("player", player), ("side", side)]) [])] := by
  cases own_side <;> rfl

/-- C19: `change_side_controller` makes one broadcast; its message has no
attribute and exactly one child, a `change_controller` whose `side` and
`player` are the arguments, whose `own_side` is `yes` exactly when the flag
is set, and which has no `controller`.  When `process_network_data` is run on
that message, no team and no displayed team changes, and the result is
`PROCESS_RESTART_TURN` whenever the side reads as a number from 1 to the
number of teams. -/
theorem C19_change_side_controller_roundtrip {W : Type} (env : environment W)
    (ti : turn_info W) (from_ : connection) (backlog : List config) (skip : Bool)
    (side player : String) (own_side : Bool) :
    change_side_controller side player own_side
        = [effect.send_data (change_side_controller_message side player own_side)]
    ∧ ∃ ch, change_side_controller_message side player own_side
          = config.mk [] [("change_controller", ch)]
      ∧ ch.attr "side" = side
      ∧ ch.attr "player" = player
      ∧ (ch.attr "own_side" = "yes" ↔ own_side = true)
      ∧ ch.attr "controller" = ""
      ∧ (process_network_data env ti (change_side_controller_message side player own_side)
          from_ backlog skip).state.teams_ = ti.teams_
      ∧ (process_network_data env ti (change_side_controller_message side player own_side)
          from_ backlog skip).state.gui_team = ti.gui_team
      ∧ (∀ s : Nat, lexical_cast_default side 1 = (s : Int) → 1 ≤ s → s ≤ ti.teams_.length →
          (process_network_data env ti (change_side_controller_message side player own_side)
            from_ backlog skip).result = Except.ok PROCESS_DATA_RESULT.PROCESS_RESTART_TURN) := by
  refine ⟨rfl, config.mk (if own_side then [("own_side", "yes"), ("player", player),
    ("side", side)] else [("player", player), ("side", side)]) [],
    change_side_controller_message_eq side player own_side, ?_, ?_, ?_, ?_, ?_⟩
  · cases own_side <;> rfl
  · cases own_side <;> rfl
  · cases own_side
    · simp only [Bool.false_eq_true, if_false, iff_false]
      have h : (config.mk [("player", player), ("side", side)] []).attr "own_side" = "" := rfl
      rw [h]
      decide
    · simp only [if_true, iff_true]
      rfl
  · cases own_side <;> rfl
  · rw [change_side_controller_message_eq side player own_side]
    generalize hch : config.mk (if own_side then [("own_side", "yes"), ("player", player),
      ("side", side)] else [("player", player), ("side", side)]) [] = ch
    have hside : ch.attr "side" = side := by subst hch; cases own_side <;> rfl
    have hctl : ch.attr "controller" = "" := by subst hch; cases own_side <;> rfl
    have hleave : (config.mk [] [("change_controller", ch)]).child "leave_game" = none := rfl
    have hchange : (config.mk [] [("change_controller", ch)]).child "change_controller"
        = some ch := rfl
    have hdrop : (config.mk [] [("change_controller", ch)]).attr "side_drop" = "" := rfl
    have hh : ch.attr "controller" ≠ "human" := by rw [hctl]; decide
    have hn : ch.attr "controller" ≠ "network" := by rw [hctl]; decide
    have ha : ch.attr "controller" ≠ "ai" := by rw [hctl]; decide
    have hstate : (process_network_data env ti (config.mk [] [("change_controller", ch)])
          from_ backlog skip).state
        = state_after_turns env ti (config.mk [] [("change_controller", ch)]) backlog skip
      ∧ (change_controller_index ch < ti.teams_.length →
          (process_network_data env ti (config.mk [] [("change_controller", ch)])
            from_ backlog skip).result
            = Except.ok PROCESS_DATA_RESULT.PROCESS_RESTART_TURN) := by
      by_cases hin : change_controller_index ch < ti.teams_.length
      · have hstep := change_controller_step_unknown
          (state_after_turns env ti (config.mk [] [("change_controller", ch)]) backlog skip)
          (config.mk [] [("change_controller", ch)]) ch hchange hin hh hn ha
        obtain ⟨h1, h2⟩ := process_network_data_change env ti _ from_ backlog skip _ hleave hstep
        exact ⟨h1, fun _ => h2⟩
      · have hstep := change_controller_step_out_of_range
          (state_after_turns env ti (config.mk [] [("change_controller", ch)]) backlog skip)
          (config.mk [] [("change_controller", ch)])
          (fun c hc => by
            rw [hchange] at hc
            cases hc
            exact Nat.not_lt.mp hin)
        rw [process_network_data_fallthrough env ti _ from_ backlog skip hleave hstep hdrop]
        exact ⟨rfl, fun h => absurd h hin⟩
    refine ⟨by rw [hstate.1]; rfl, by rw [hstate.1]; rfl, ?_⟩
    intro s hs hlo hhi
    apply hstate.2
    have hr := lexical_cast_default_range side 1 (by norm_num) (by norm_num)
    rw [hs] at hr
    unfold change_controller_index
    rw [hside, hs, index_of_side_in_range s hlo hr.2]
    omega
